import Mathlib

/-!
# Verification of the JIWE XML formatter backend

A shallow embedding, in Lean 4, of the core of `backend.py` (the
formatting-compliance engine of the JIWE XML formatter): the structural
extractor, the section classifier, the template-profile builder, the
expectation resolver, the comparator and the mutators.

Modelling conventions:
* Python `float` font sizes are embedded as `ℚ` (all sizes handled by the
  program are decimal literals, exactly representable);
* Python `int` half-point values are embedded as `ℤ`;
* Python dictionaries with a fixed key vocabulary (formatting dictionaries)
  are structures with one `Option` field per key (the program never stores
  `None` under a present key, so key absence and `None` coincide);
* the module-level mutable registry `JOURNAL_METADATA_TOKEN_SETS` is threaded
  through the functions that read or extend it as an explicit `Registry`
  argument and result, the standard state-passing embedding of a global;
* regular-expression operations are unfolded into explicit character-list
  scanners with the same matching semantics on the inputs the program feeds
  them (ASCII word characters, `\s` whitespace);
* XML paragraph elements are embedded as records (`XPara`, `XRun`, `RPr`)
  holding exactly the attributes the program reads or writes.
-/

/-! ## Python-style character and string primitives -/

/-- Python `\s` / `str.strip` whitespace for the ASCII texts the program
handles: space, tab, CR, LF, vertical tab, form feed. -/
def pyIsSpace (c : Char) : Bool :=
  c = ' ' || c = '\t' || c = '\r' || c = '\n' || c = '\x0b' || c = '\x0c'

/-- ASCII lower-casing, the effect of Python `str.lower` on the program's
ASCII inputs. -/
def pyLowerChar (c : Char) : Char :=
  if 'A' ≤ c ∧ c ≤ 'Z' then Char.ofNat (c.toNat + 32) else c

def pyUpperChar (c : Char) : Char :=
  if 'a' ≤ c ∧ c ≤ 'z' then Char.ofNat (c.toNat - 32) else c

def pyIsAlphaChar (c : Char) : Bool :=
  ('a' ≤ c ∧ c ≤ 'z') || ('A' ≤ c ∧ c ≤ 'Z')

def pyIsDigitChar (c : Char) : Bool :=
  '0' ≤ c ∧ c ≤ '9'

def pyIsAlnumChar (c : Char) : Bool :=
  pyIsAlphaChar c || pyIsDigitChar c

/-- Python regex `\w` (word character) on ASCII input. -/
def pyIsWordChar (c : Char) : Bool :=
  pyIsAlnumChar c || c = '_'

def pyIsUpperChar (c : Char) : Bool :=
  'A' ≤ c ∧ c ≤ 'Z'

def pyIsLowerChar (c : Char) : Bool :=
  'a' ≤ c ∧ c ≤ 'z'

def lowerStr (s : List Char) : List Char := s.map pyLowerChar

/-- Python `str.strip()` on a character list. -/
def stripStr (s : List Char) : List Char :=
  ((s.dropWhile pyIsSpace).reverse.dropWhile pyIsSpace).reverse

/-- Python `str.lstrip(chars)`. -/
def lstripChars (chars : List Char) (s : List Char) : List Char :=
  s.dropWhile (fun c => chars.contains c)

theorem dropWhileLenLe (p : Char → Bool) (l : List Char) :
    (l.dropWhile p).length ≤ l.length := by
  induction l with
  | nil => simp [List.dropWhile]
  | cons a t ih =>
    simp only [List.dropWhile]
    split
    · exact Nat.le_succ_of_le ih
    · simp

/-- Accumulator-passing kernel of `splitWs`; `acc` holds the reversed current
word. -/
def splitWsAux : List Char → List Char → List (List Char)
  | acc, [] => if acc.isEmpty then [] else [acc.reverse]
  | acc, c :: rest =>
    if pyIsSpace c then
      if acc.isEmpty then splitWsAux [] rest
      else acc.reverse :: splitWsAux [] rest
    else splitWsAux (c :: acc) rest

/-- Python `str.split()` (split on whitespace runs, dropping empties). -/
def splitWs (s : List Char) : List (List Char) := splitWsAux [] s

/-- State-passing kernel of `collapseWs`; the flag records whether the
previous character was whitespace (so runs emit a single space). -/
def collapseWsAux : Bool → List Char → List Char
  | _, [] => []
  | prevWs, c :: rest =>
    if pyIsSpace c then
      if prevWs then collapseWsAux true rest
      else ' ' :: collapseWsAux true rest
    else c :: collapseWsAux false rest

/-- `re.sub(r"\s+", " ", text)`: collapse every whitespace run to one space. -/
def collapseWs (s : List Char) : List Char := collapseWsAux false s

/-- `re.sub(r"\s+", "", text)`: delete all whitespace. -/
def deleteWs (s : List Char) : List Char :=
  s.filter (fun c => ¬ pyIsSpace c)

/-- Python substring containment `needle in haystack`. -/
def containsSub (haystack needle : List Char) : Bool :=
  (List.range (haystack.length + 1)).any
    (fun i => needle.isPrefixOf (haystack.drop i))

/-- Python `str.startswith`. -/
def startsWithStr (s kw : List Char) : Bool := kw.isPrefixOf s

/-- Python `str.islower()`: at least one cased character and no cased
character is upper case (ASCII). -/
def pyIsLowerStr (s : List Char) : Bool :=
  s.any pyIsAlphaChar && s.all (fun c => ¬ pyIsUpperChar c)

/-- Python `str.title()`: a letter is upper-cased when the previous character
is not a letter, lower-cased otherwise. -/
def pyTitleAux : Bool → List Char → List Char
  | _, [] => []
  | prevAlpha, c :: rest =>
    if pyIsAlphaChar c then
      (if prevAlpha then pyLowerChar c else pyUpperChar c) :: pyTitleAux true rest
    else
      c :: pyTitleAux false rest

def pyTitle (s : List Char) : List Char := pyTitleAux false s

/-- Python `str.replace(old, new)` for single characters. -/
def replaceChar (old new : Char) (s : List Char) : List Char :=
  s.map (fun c => if c = old then new else c)

/-! ## Python numerics: banker's rounding and decimal display

Arithmetic on the embedded rationals is routed through `mkRat`-based
helpers (`qAdd`, `qSub`, `qMul`, `qDiv`, `qAbs`): the library's rational
arithmetic is irreducible to the kernel, while these helpers evaluate, and
the bridge lemmas below identify them with the library operations. -/

def qAdd (a b : ℚ) : ℚ := mkRat (a.num * b.den + b.num * a.den) (a.den * b.den)

def qSub (a b : ℚ) : ℚ := mkRat (a.num * b.den - b.num * a.den) (a.den * b.den)

def qMul (a b : ℚ) : ℚ := mkRat (a.num * b.num) (a.den * b.den)

def qInv (b : ℚ) : ℚ := mkRat (Int.sign b.num * b.den) b.num.natAbs

def qDiv (a b : ℚ) : ℚ := qMul a (qInv b)

def qAbs (a : ℚ) : ℚ := mkRat (a.num.natAbs : ℤ) a.den

theorem qAdd_eq (a b : ℚ) : qAdd a b = a + b := by
  conv_rhs => rw [← Rat.num_div_den a, ← Rat.num_div_den b]
  unfold qAdd
  rw [Rat.mkRat_eq_div]
  have ha : ((a.den : ℚ)) ≠ 0 := by positivity
  have hb : ((b.den : ℚ)) ≠ 0 := by positivity
  field_simp

theorem qSub_eq (a b : ℚ) : qSub a b = a - b := by
  conv_rhs => rw [← Rat.num_div_den a, ← Rat.num_div_den b]
  unfold qSub
  rw [Rat.mkRat_eq_div]
  have ha : ((a.den : ℚ)) ≠ 0 := by positivity
  have hb : ((b.den : ℚ)) ≠ 0 := by positivity
  field_simp
  ring

theorem qMul_eq (a b : ℚ) : qMul a b = a * b := by
  conv_rhs => rw [← Rat.num_div_den a, ← Rat.num_div_den b]
  unfold qMul
  rw [Rat.mkRat_eq_div]
  have ha : ((a.den : ℚ)) ≠ 0 := by positivity
  have hb : ((b.den : ℚ)) ≠ 0 := by positivity
  field_simp

theorem qInv_eq (b : ℚ) : qInv b = b⁻¹ := by
  have hinv : b⁻¹ = ((b.den : ℚ)) / ((b.num : ℚ)) := by
    rw [Rat.inv_def', Rat.divInt_eq_div]
    norm_num
  unfold qInv
  rcases lt_trichotomy b.num 0 with h | h | h
  · rw [Rat.mkRat_eq_div, hinv, Int.sign_eq_neg_one_of_neg h]
    push_cast [Int.cast_natAbs]
    have hneg : ((b.num : ℚ)) < 0 := by exact_mod_cast h
    rw [abs_of_neg hneg]
    have h2 : ((b.num : ℚ)) ≠ 0 := ne_of_lt hneg
    field_simp
  · have hb0 : b = 0 := by rwa [Rat.num_eq_zero] at h
    subst hb0
    norm_num
  · rw [Rat.mkRat_eq_div, hinv, Int.sign_eq_one_of_pos h]
    push_cast [Int.cast_natAbs]
    have hpos : (0 : ℚ) < ((b.num : ℚ)) := by exact_mod_cast h
    rw [abs_of_pos hpos]
    ring_nf

theorem qDiv_eq (a b : ℚ) : qDiv a b = a / b := by
  unfold qDiv
  rw [qMul_eq, qInv_eq, div_eq_mul_inv]

theorem qAbs_eq (a : ℚ) : qAbs a = |a| := by
  unfold qAbs
  rw [Rat.mkRat_eq_div]
  push_cast [Int.cast_natAbs]
  conv_rhs => rw [← Rat.num_div_den a]
  rw [abs_div]
  congr 1
  exact (abs_of_pos (by positivity)).symm

/-- Python `round(x)` (round half to even) on an exact rational.  The floor
is taken as `⌊q⌋ = q.num.ediv q.den` (`Rat.floor_def`), and the parity test
`f % 2 = 0` is Python's round-half-to-even tie break. -/
def pyRound (q : ℚ) : ℤ :=
  let f : ℤ := q.num / (q.den : ℤ)
  let r : ℚ := qSub q ((f : ℤ) : ℚ)
  if r < mkRat 1 2 then f
  else if mkRat 1 2 < r then f + 1
  else if f % 2 = 0 then f else f + 1

/-- Python `round(x, 2)` on an exact rational. -/
def pyRound2 (q : ℚ) : ℚ := qDiv ((pyRound (qMul q 100) : ℤ) : ℚ) 100

/-- Decimal digits of a natural number, most significant first (enough fuel
is always `n + 1`). -/
def natToCharsAux : ℕ → ℕ → List Char
  | 0, _ => []
  | fuel + 1, n =>
    if n < 10 then [Char.ofNat (48 + n)]
    else natToCharsAux fuel (n / 10) ++ [Char.ofNat (48 + n % 10)]

/-- Decimal rendering of a natural number (Python `str`). -/
def natToChars (n : ℕ) : List Char := natToCharsAux (n + 1) n

/-- Decimal rendering of an integer (Python `str`). -/
def intToChars (z : ℤ) : List Char :=
  if z < 0 then '-' :: natToChars z.natAbs else natToChars z.natAbs

/-! ## Number parsing (Python `float(...)` on simple decimal strings) -/

def digitsToNat (ds : List Char) : ℕ :=
  ds.foldl (fun acc c => acc * 10 + (c.toNat - 48)) 0

/-- Parse `digits` or `digits.digits` to an exact rational; `none` models a
Python `ValueError`.  This covers exactly the decimal forms the program feeds
to `float(...)`. -/
def parseSimpleFloat (s : List Char) : Option ℚ :=
  let s := stripStr s
  let intPart := s.takeWhile pyIsDigitChar
  let rest := s.dropWhile pyIsDigitChar
  match rest with
  | [] => if intPart.isEmpty then none else some (digitsToNat intPart : ℚ)
  | '.' :: frac =>
    if frac.all pyIsDigitChar ∧ ¬ frac.isEmpty ∧ ¬ intPart.isEmpty then
      some (qAdd (digitsToNat intPart : ℚ)
        (qDiv (digitsToNat frac : ℚ) ((10 ^ frac.length : ℕ) : ℚ)))
    else none
  | _ => none

/-! ## Regex scanners used by the classifier

Each definition unfolds one regular expression from `backend.py` into an
explicit scanner with the same matching semantics (greedy character classes
with no profitable backtracking on these patterns). -/

/-- State-passing kernel of `collapseRunsWith`; the flag records whether the
previous character satisfied `p` (so runs emit `r` once). -/
def collapseRunsWithAux (p : Char → Bool) (r : Char) : Bool → List Char → List Char
  | _, [] => []
  | inRun, c :: rest =>
    if p c then
      if inRun then collapseRunsWithAux p r true rest
      else r :: collapseRunsWithAux p r true rest
    else c :: collapseRunsWithAux p r false rest

/-- Replace every run of characters satisfying `p` by the single character
`r` (the shape of `re.sub(cls + "+", r, s)`). -/
def collapseRunsWith (p : Char → Bool) (r : Char) (s : List Char) : List Char :=
  collapseRunsWithAux p r false s

/-- Characters matched by `[\s\-\–\—]`. -/
def isDashOrWs (c : Char) : Bool :=
  pyIsSpace c || c = '-' || c = '–' || c = '—'

/-- Characters matched by `[\.\-:\)]`. -/
def isDotDashColonParen (c : Char) : Bool :=
  c = '.' || c = '-' || c = ':' || c = ')'

/-- `re.sub(r"^[\s\-\–\—]*[\d]+(?:[.\d]*)?\s*[\.\-:\)]*\s*", "", s)`. -/
def stripLeadingNumbering (s : List Char) : List Char :=
  let t := s.dropWhile isDashOrWs
  match t with
  | c :: _ =>
    if pyIsDigitChar c then
      ((((t.dropWhile pyIsDigitChar).dropWhile
          (fun d => d = '.' || pyIsDigitChar d)).dropWhile
          pyIsSpace).dropWhile isDotDashColonParen).dropWhile pyIsSpace
    else s
  | [] => s

/-- Characters matched by `(?i)[ivxlcdm]`. -/
def isRomanChar (c : Char) : Bool :=
  ['i', 'v', 'x', 'l', 'c', 'd', 'm'].contains (pyLowerChar c)

/-- `True` when the position starting at `rest` is a word boundary coming
from a word character (`\b` after a letter or digit). -/
def boundaryBefore (rest : List Char) : Bool :=
  match rest with
  | [] => true
  | c :: _ => ¬ pyIsWordChar c

/-- `re.sub(r"(?i)^[\s\-\–\—]*[ivxlcdm]{2,}(?=\b)\s*[\.\-:\)]*\s*", "", s)`. -/
def stripLeadingRomanMulti (s : List Char) : List Char :=
  let t := s.dropWhile isDashOrWs
  let run := t.takeWhile isRomanChar
  let rest := t.dropWhile isRomanChar
  if run.length ≥ 2 ∧ boundaryBefore rest then
    ((rest.dropWhile pyIsSpace).dropWhile isDotDashColonParen).dropWhile pyIsSpace
  else s

/-- Characters matched by `[\s\.\-:\)]`. -/
def isWsDotDashColonParen (c : Char) : Bool :=
  pyIsSpace c || isDotDashColonParen c

/-- `re.sub(r"(?i)^[\s\-\–\—]*[ivxlcdm](?=[\s\.\-:\)])[\s\.\-:\)]*", "", s)`. -/
def stripLeadingRomanSingle (s : List Char) : List Char :=
  let t := s.dropWhile isDashOrWs
  match t with
  | c :: c2 :: rest =>
    if isRomanChar c ∧ isWsDotDashColonParen c2 then
      (c2 :: rest).dropWhile isWsDotDashColonParen
    else s
  | _ => s

/-- Characters matched by `[\*\•\·•\-\–\—\•]`. -/
def isBulletChar (c : Char) : Bool :=
  ['*', '•', '·', '-', '–', '—'].contains c

/-- `re.sub(r"^[\*\•\·•\-\–\—\•]+\s*", "", s)`. -/
def stripLeadingBullets (s : List Char) : List Char :=
  match s with
  | c :: _ =>
    if isBulletChar c then (s.dropWhile isBulletChar).dropWhile pyIsSpace
    else s
  | [] => s

/-- `re.sub(r"^[^A-Za-z0-9]+|[^A-Za-z0-9]+$", "", token)`. -/
def stripTokenEdges (w : List Char) : List Char :=
  (((w.dropWhile (fun c => ¬ pyIsAlnumChar c)).reverse.dropWhile
    (fun c => ¬ pyIsAlnumChar c)).reverse)

/-- `re.fullmatch(r"[\d\W]+", s)` is a match: non-empty and no character is a
letter or an underscore. -/
def fullmatchDigitsNonword (s : List Char) : Bool :=
  ¬ s.isEmpty && s.all (fun c => ¬ (pyIsAlphaChar c || c = '_'))

/-- `re.sub(r"\s*\(.*?\)", " ", s)` with explicit fuel (each step consumes at
least one character, so `s.length + 1` fuel always suffices). -/
def stripParenGroupsAux : ℕ → List Char → List Char
  | 0, s => s
  | fuel + 1, s =>
    match s with
    | [] => []
    | c :: rest =>
      let afterWs := s.dropWhile pyIsSpace
      match afterWs with
      | '(' :: tail =>
        match tail.dropWhile (fun d => ¬ d = ')') with
        | ')' :: rem => ' ' :: stripParenGroupsAux fuel rem
        | _ => c :: stripParenGroupsAux fuel rest
      | _ => c :: stripParenGroupsAux fuel rest

def stripParenGroups (s : List Char) : List Char :=
  stripParenGroupsAux (s.length + 1) s

/-- `\b` immediately after a keyword occurrence: holds when the remaining
characters do not start with a word character. -/
def boundaryAfterKw (rest : List Char) : Bool :=
  boundaryBefore rest

/-- `re.match(r"^(?:\d+[.)]?\s*)?" + kw + r"\b", s)` is a match. -/
def numPrefixKwMatch (kw s : List Char) : Bool :=
  (kw.isPrefixOf s && boundaryAfterKw (s.drop kw.length)) ||
  (let ds := s.takeWhile pyIsDigitChar
   ¬ ds.isEmpty &&
   (let r := s.dropWhile pyIsDigitChar
    let r := match r with
      | c :: t => if c = '.' || c = ')' then t else r
      | [] => r
    let r := r.dropWhile pyIsSpace
    kw.isPrefixOf r && boundaryAfterKw (r.drop kw.length)))

/-- `re.match(r"^(?:" + kw + r")\s*[:–-]", s)` is a match. -/
def kwColonMatch (kw s : List Char) : Bool :=
  kw.isPrefixOf s &&
  (match (s.drop kw.length).dropWhile pyIsSpace with
   | c :: _ => c = ':' || c = '–' || c = '-'
   | [] => false)

/-- After an alternation prefix, `\s*\d+` matches. -/
def wsThenDigit (t : List Char) : Bool :=
  match t.dropWhile pyIsSpace with
  | c :: _ => pyIsDigitChar c
  | [] => false

/-- `re.match(r"^(figure|fig)\b", s, re.IGNORECASE)` is a match (on input
already lower-cased). -/
def figBoundaryMatch (s : List Char) : Bool :=
  (startsWithStr s "figure".data && boundaryAfterKw (s.drop 6)) ||
  (startsWithStr s "fig".data && boundaryAfterKw (s.drop 3))

/-- `re.match(r"^(figure|fig)\s*\d+", s, re.IGNORECASE)` is a match. -/
def figNumberMatch (s : List Char) : Bool :=
  (startsWithStr s "figure".data && wsThenDigit (s.drop 6)) ||
  (startsWithStr s "fig".data && wsThenDigit (s.drop 3))

/-- `re.match(r"^fig\.?\s*\d+", s, re.IGNORECASE)` is a match. -/
def figDotNumberMatch (s : List Char) : Bool :=
  startsWithStr s "fig".data &&
  (let r := s.drop 3
   let r := match r with
     | '.' :: t => t
     | _ => r
   wsThenDigit r)

/-- `re.match(r"^(table|tab)\b", s, re.IGNORECASE)` is a match. -/
def tabBoundaryMatch (s : List Char) : Bool :=
  (startsWithStr s "table".data && boundaryAfterKw (s.drop 5)) ||
  (startsWithStr s "tab".data && boundaryAfterKw (s.drop 3))

/-- `re.match(r"^table\s*\d+", s, re.IGNORECASE)` is a match. -/
def tableNumberMatch (s : List Char) : Bool :=
  startsWithStr s "table".data && wsThenDigit (s.drop 5)

/-- `re.match(r"^\d+[\.\)]?\s*\w+", s)` is a match. -/
def numberedHeadingMatch (s : List Char) : Bool :=
  let ds := s.takeWhile pyIsDigitChar
  ¬ ds.isEmpty &&
  (ds.length ≥ 2 ||
   (let r := s.dropWhile pyIsDigitChar
    let r := match r with
      | c :: t => if c = '.' || c = ')' then t else r
      | [] => r
    match r.dropWhile pyIsSpace with
    | c :: _ => pyIsWordChar c
    | [] => false))

/-- `re.search(r"\b" + kw + r"\b", s)` finds a match. -/
def wordBoundedSearch (s kw : List Char) : Bool :=
  (List.range (s.length + 1)).any (fun i =>
    (i = 0 || ¬ pyIsWordChar (s.getD (i - 1) ' ')) &&
    kw.isPrefixOf (s.drop i) &&
    boundaryAfterKw (s.drop (i + kw.length)))

/-- A match of `\b[A-Z][a-z]{1,}\s+[A-Z][a-z]{1,}\b` starting at offset `i`. -/
def nameLikeAt (s : List Char) (i : ℕ) : Bool :=
  (i = 0 || ¬ pyIsWordChar (s.getD (i - 1) ' ')) &&
  (match s.drop i with
   | u :: rest =>
     pyIsUpperChar u &&
     (let lows := rest.takeWhile pyIsLowerChar
      ¬ lows.isEmpty &&
      (let r := rest.dropWhile pyIsLowerChar
       ¬ (r.takeWhile pyIsSpace).isEmpty &&
       (match r.dropWhile pyIsSpace with
        | u2 :: rest2 =>
          pyIsUpperChar u2 &&
          (let lows2 := rest2.takeWhile pyIsLowerChar
           ¬ lows2.isEmpty && boundaryAfterKw (rest2.dropWhile pyIsLowerChar))
        | [] => false)))
   | [] => false)

/-- `re.findall(r"\b[A-Z][a-z]{1,}\s+[A-Z][a-z]{1,}\b", s)` is non-empty. -/
def nameLikeSearch (s : List Char) : Bool :=
  (List.range s.length).any (nameLikeAt s)

/-- Accumulator-passing kernel of `alnumRuns`; `acc` holds the reversed
current run. -/
def alnumRunsAux : List Char → List Char → List (List Char)
  | acc, [] => if acc.isEmpty then [] else [acc.reverse]
  | acc, c :: rest =>
    if pyIsAlnumChar c then alnumRunsAux (c :: acc) rest
    else if acc.isEmpty then alnumRunsAux [] rest
    else acc.reverse :: alnumRunsAux [] rest

/-- `re.findall(r"[A-Za-z0-9]+", s)`: maximal alphanumeric runs. -/
def alnumRuns (s : List Char) : List (List Char) := alnumRunsAux [] s

/-! ## String wrappers -/

def pyLower (s : String) : String := ⟨lowerStr s.data⟩

def pyStrip (s : String) : String := ⟨stripStr s.data⟩

/-- Python `needle in haystack` on strings. -/
def inStr (needle haystack : String) : Bool := containsSub haystack.data needle.data

def firstSome {α : Type} (a b : Option α) : Option α :=
  match a with
  | some x => some x
  | none => b

/-! ## Font-size conversions (`backend.py` utility section) -/

/-- `normalize_half_points`: `int(round(float(value)))`, `None` on failure. -/
def normalize_half_points (value : Option String) : Option ℤ :=
  match value with
  | none => none
  | some v => (parseSimpleFloat v.data).map pyRound

/-- `half_points_to_pt`: `round(float(val) / 2.0, 2)`. -/
def half_points_to_pt (val : ℚ) : ℚ := pyRound2 (qDiv val 2)

/-- `pt_to_half_points`: `int(round(float(value) * 2.0))`. -/
def pt_to_half_points (value : ℚ) : ℤ := pyRound (qMul value 2)

/-! ## Formatting dictionaries

A formatting dictionary has the fixed key vocabulary `font_size`,
`font_size_w_val`, `font_name`, `bold`, `italic`; the program never stores
`None` under a present key, so `Option` fields model key presence. -/

structure Fmt where
  font_size : Option ℚ := none
  font_size_w_val : Option ℤ := none
  font_name : Option String := none
  bold : Option Bool := none
  italic : Option Bool := none
  deriving DecidableEq, Repr

namespace Fmt

/-- Python `base.update(o)`: keys present in `o` overwrite. -/
def update (base o : Fmt) : Fmt where
  font_size := firstSome o.font_size base.font_size
  font_size_w_val := firstSome o.font_size_w_val base.font_size_w_val
  font_name := firstSome o.font_name base.font_name
  bold := firstSome o.bold base.bold
  italic := firstSome o.italic base.italic

/-- Python `for k, v in src.items(): base.setdefault(k, v)` — also the shape
of `if key not in base or base[key] is None: base[key] = value`. -/
def setdefaults (base src : Fmt) : Fmt where
  font_size := firstSome base.font_size src.font_size
  font_size_w_val := firstSome base.font_size_w_val src.font_size_w_val
  font_name := firstSome base.font_name src.font_name
  bold := firstSome base.bold src.bold
  italic := firstSome base.italic src.italic

/-- Python truthiness of the dictionary (`if not base`). -/
def isEmptyDict (f : Fmt) : Bool :=
  f.font_size.isNone && f.font_size_w_val.isNone && f.font_name.isNone &&
  f.bold.isNone && f.italic.isNone

end Fmt

/-- `ensure_font_size_pair`: fill whichever of the pt / half-point fields is
missing from the other; leave the dictionary unchanged otherwise. -/
def ensure_font_size_pair (f : Fmt) : Fmt :=
  match f.font_size_w_val, f.font_size with
  | some hp, none => { f with font_size := some (half_points_to_pt (hp : ℚ)) }
  | none, some pt => { f with font_size_w_val := some (pt_to_half_points pt) }
  | _, _ => f

/-! ## Hard-coded tables -/

def HARDCODED_SECTION_OVERRIDES : List (String × Fmt) :=
  [("title", { font_size := some 24, bold := some false }),
   ("journal_metadata", { font_size := some 9, bold := some false }),
   ("introduction", { bold := some false }),
   ("results and discussions", { bold := some false }),
   ("body_text", { bold := some false }),
   ("references", { font_size := some 10, bold := some false }),
   ("subtitle", { font_size := some 16, bold := some false }),
   ("funding statement", { bold := some false })]

def defaultFormattingTable : List (String × Fmt) :=
  [("title", { font_size := some 24, bold := some false, font_name := some "Times New Roman" }),
   ("subtitle", { font_size := some 16, bold := some false, font_name := some "Times New Roman" }),
   ("authors", { font_size := some 11, bold := some true, font_name := some "Times New Roman" }),
   ("affiliation", { font_size := some 9, bold := some false, font_name := some "Times New Roman" }),
   ("corresponding_author",
     { font_size := some 9, bold := some false, italic := some true, font_name := some "Times New Roman" }),
   ("submission_history",
     { font_size := some 9, bold := some false, italic := some true, font_name := some "Times New Roman" }),
   ("journal_name", { font_size := some 24, bold := some true, font_name := some "Palatino Linotype" }),
   ("journal_metadata", { font_size := some 9, bold := some false, font_name := some "Times New Roman" }),
   ("abstract", { font_size := some 9, bold := some false, font_name := some "Times New Roman" }),
   ("keywords", { font_size := some 9, bold := some false, italic := some true, font_name := some "Times New Roman" }),
   ("introduction", { font_size := some 10, bold := some false, font_name := some "Times New Roman" }),
   ("literature review", { font_size := some 10, bold := some true, font_name := some "Times New Roman" }),
   ("research methodology", { font_size := some 10, bold := some true, font_name := some "Times New Roman" }),
   ("results and discussions", { font_size := some 10, bold := some false, font_name := some "Times New Roman" }),
   ("conclusion", { font_size := some 10, bold := some true, font_name := some "Times New Roman" }),
   ("acknowledgement", { font_size := some 10, bold := some true, font_name := some "Times New Roman" }),
   ("funding statement", { font_size := some 10, bold := some false, font_name := some "Times New Roman" }),
   ("author contributions", { font_size := some 10, bold := some true, font_name := some "Times New Roman" }),
   ("conflict of interests", { font_size := some 10, bold := some true, font_name := some "Times New Roman" }),
   ("ethics statements", { font_size := some 10, bold := some true, font_name := some "Times New Roman" }),
   ("biographies of authors", { font_size := some 10, bold := some true, font_name := some "Times New Roman" }),
   ("main_heading", { font_size := some 10, bold := some true, font_name := some "Times New Roman" }),
   ("body_text", { font_size := some 10, bold := some false, font_name := some "Times New Roman" }),
   ("figure_caption", { font_size := some 10, bold := some false, font_name := some "Times New Roman" }),
   ("table_caption", { font_size := some 10, bold := some false, font_name := some "Times New Roman" }),
   ("references", { font_size := some 10, bold := some false, font_name := some "Times New Roman" })]

/-- `get_default_formatting`. -/
def get_default_formatting (section_type : String) : Fmt :=
  ensure_font_size_pair
    ((defaultFormattingTable.lookup section_type).getD
      { font_size := some 10, bold := some false, font_name := some "Times New Roman" })

def ROLE_TAG_TO_SECTION : List (String × String) :=
  [("jiwe:journal-header", "journal_name"),
   ("jiwe:journal-metadata", "journal_metadata"),
   ("jiwe:title", "title"),
   ("jiwe:subtitle", "subtitle"),
   ("jiwe:authors", "authors"),
   ("jiwe:affiliation", "affiliation"),
   ("jiwe:corresponding", "corresponding_author"),
   ("jiwe:abstract", "abstract"),
   ("jiwe:keywords", "keywords"),
   ("jiwe:submission-history", "submission_history"),
   ("jiwe:figure-caption", "figure_caption"),
   ("jiwe:table-caption", "table_caption"),
   ("jiwe:ack-text", "acknowledgement"),
   ("jiwe:funding-text", "funding statement"),
   ("jiwe:contrib", "author contributions"),
   ("jiwe:conflict", "conflict of interests"),
   ("jiwe:ethics", "ethics statements"),
   ("jiwe:reference", "references"),
   ("jiwe:bio", "biographies of authors")]

def SECTION_TO_RULE_ROLE : List (String × String) :=
  [("title", "title"),
   ("journal_name", "journal-header"),
   ("journal_metadata", "journal-metadata"),
   ("subtitle", "subtitle"),
   ("authors", "authors"),
   ("affiliation", "affiliation"),
   ("corresponding_author", "corresponding"),
   ("abstract", "abstract"),
   ("keywords", "keywords"),
   ("submission_history", "submission-history"),
   ("body_text", "body"),
   ("figure_caption", "caption"),
   ("table_caption", "caption"),
   ("acknowledgement", "ack-text"),
   ("funding statement", "funding-text"),
   ("author contributions", "contrib"),
   ("conflict of interests", "conflict"),
   ("ethics statements", "ethics"),
   ("references", "reference")]

/-! ## Special-case texts and the journal-metadata registry -/

/-- `normalize_special_key`: delete all whitespace, lower-case. -/
def normalize_special_key (text : String) : String :=
  ⟨lowerStr (deleteWs text.data)⟩

/-- ASCII apostrophe, built by code point so the source file stays free of
bare quote characters. -/
def apos : String := ⟨[Char.ofNat 39]⟩

def SPECIAL_TITLE_TEXT : String :=
  "Dropout  P rediction  M odel for  C ollege  S tudents in MOOCs  B ased on  Weight ed   M ulti-feature and SVM"

def REQUIRED_JOURNAL_METADATA_LINE : String :=
  "1 ,3   4WGP+JQP, Shenheer Rd, Chang" ++ apos ++ "An, Xi" ++ apos ++ "An, 710100 Shaanxi, China."

def SPECIAL_TEXT_TO_SECTION : List (String × String) :=
  [(normalize_special_key SPECIAL_TITLE_TEXT, "title"),
   (normalize_special_key REQUIRED_JOURNAL_METADATA_LINE, "journal_metadata"),
   (normalize_special_key "Web Engineering", "journal_name")]

def SPECIAL_TEXT_FORMATTING_OVERRIDES : List (String × Fmt) :=
  [(normalize_special_key SPECIAL_TITLE_TEXT, { font_size := some 24, bold := some false }),
   (normalize_special_key REQUIRED_JOURNAL_METADATA_LINE, { font_size := some 9, bold := some false })]

/-- The state of the module-level registry `JOURNAL_METADATA_TOKEN_SETS`:
token signatures in registration order (a `frozenset` is modelled as its
duplicate-free token list; membership tests compare as sets). -/
abbrev Registry := List (List String)

/-- `normalize_metadata_tokens` (the second cleaning pass in the source is
the identity on maximal alphanumeric runs of lower-cased text). -/
def normalize_metadata_tokens (text : String) : List String :=
  (alnumRuns (lowerStr text.data)).map (fun t => (⟨t⟩ : String))

def dedupKeepFirst (l : List String) : List String :=
  l.foldl (fun acc t => if acc.contains t then acc else acc ++ [t]) []

def setEqStr (a b : List String) : Bool :=
  a.all (fun t => b.contains t) && b.all (fun t => a.contains t)

/-- `register_journal_metadata_example`: extend the registry state. -/
def register_journal_metadata_example (reg : Registry) (text : String) : Registry :=
  let tokens := normalize_metadata_tokens text
  if tokens.length < 3 then reg
  else
    let signature := dedupKeepFirst tokens
    if ¬ signature.isEmpty ∧ ¬ reg.any (fun s => setEqStr s signature) then
      reg ++ [signature]
    else reg

/-- `matches_registered_journal_metadata`. -/
def matches_registered_journal_metadata (reg : Registry) (text : String) : Bool :=
  if reg.isEmpty then false
  else
    let tokens := dedupKeepFirst (normalize_metadata_tokens text)
    if tokens.isEmpty then false
    else
      reg.any (fun pattern =>
        let overlap := tokens.countP (fun t => pattern.contains t)
        if overlap < 3 then false
        else
          let denom := max 1 (min pattern.length tokens.length)
          decide (2 * overlap ≥ denom))

/-! ## Paragraph records (the dictionaries built by the extractor) -/

structure RunData where
  font_size : Option ℚ := none
  font_size_w_val : Option ℤ := none
  font_name : Option String := none
  bold : Bool := false
  italic : Bool := false
  text : String := ""
  deriving DecidableEq, Repr

structure Paragraph where
  index : ℕ
  text : String
  p_style : Option String := none
  font_size : Option ℚ := none
  font_size_w_val : Option ℤ := none
  font_name : Option String := none
  bold : Bool := false
  italic : Bool := false
  runs : List RunData := []
  role_tag : Option String := none
  alignment : Option String := none
  deriving DecidableEq, Repr

/-! ## Section classifier (`classify_section_type`) -/

def sectionKeywords : List (String × List String) :=
  [("abstract", ["abstract"]),
   ("keywords", ["keywords", "keyword"]),
   ("affiliation", ["affiliation", "department of", "faculty of", "school of"]),
   ("introduction", ["introduction"]),
   ("subtitle", ["subtitle"]),
   ("literature review", ["literature review", "related work"]),
   ("research methodology", ["research methodology", "methodology", "methods"]),
   ("results and discussions", ["results and discussions", "results", "discussion"]),
   ("conclusion", ["conclusion", "conclusions"]),
   ("acknowledgement", ["acknowledgement", "acknowledgments", "acknowledgement"]),
   ("funding statement", ["funding statement", "funding"]),
   ("author contributions", ["author contributions", "contributions"]),
   ("conflict of interests",
     ["conflict of interests", "conflicts of interest", "competing interests"]),
   ("ethics statements", ["ethics statements", "ethical statement", "ethics"]),
   ("references", ["references", "reference", "bibliography"])]

def allSectionKeywords : List String :=
  (sectionKeywords.map (fun p => p.2)).flatten

def frontMatterTokens : List String :=
  ["vol.", "volume", "no.", "issue", "issn", "eissn", "doi"]

def metadataKeywords : List String :=
  ["department", "faculty", "university", "institute", "school", "jalan", "road",
   "street", "malaysia", "singapore", "taiwan", "china", "india", "thailand",
   "tel", "fax", "postal", "address"]

/-- The keyword-table loop of step 8 of the classifier: first `(sect, kw)`
whose match condition and heading-length condition both hold. -/
def keywordLoopFind (cleaned : List Char) : Option String :=
  sectionKeywords.findSome? (fun p =>
    p.2.findSome? (fun kw =>
      let k := kw.data
      if (startsWithStr cleaned k || numPrefixKwMatch k cleaned ||
          kwColonMatch k cleaned) &&
         (["abstract", "keywords", "affiliation"].contains p.1 ||
          (splitWs cleaned).length ≤ 15)
      then some p.1 else none))

/-- The numbered-heading fallback loop: first section one of whose keywords
occurs anywhere in the lower-cased text, else `main_heading`. -/
def numberedHeadingFind (lower_text : List Char) : String :=
  (sectionKeywords.findSome? (fun p =>
    p.2.findSome? (fun kw =>
      if containsSub lower_text kw.data then some p.1 else none))).getD
    "main_heading"

/-- The text-based cascade of `classify_section_type` (everything after the
role-tag step). -/
def classify_text_rules (reg : Registry) (paragraph : Paragraph) : String :=
  let raw := stripStr paragraph.text.data
  let special_key := normalize_special_key (⟨raw⟩ : String)
  match SPECIAL_TEXT_TO_SECTION.lookup special_key with
  | some sect => sect
  | none =>
  if raw.isEmpty then "body_text" else
  let text := collapseWs (stripStr (replaceChar '\n' ' ' (replaceChar '\r' ' ' raw)))
  let lower_text := lowerStr text
  let font_size : ℚ := paragraph.font_size.getD 0
  let p_style := lowerStr ((paragraph.p_style.getD "").data)
  let idx := paragraph.index
  let raw_words := splitWs text
  let words := raw_words.map (fun w =>
    let s := stripTokenEdges w
    if s.isEmpty then w else s)
  let titlecase_count := words.countP (fun w =>
    w.length > 2 ∧ pyIsUpperChar (w.getD 0 ' ') ∧
    (w.length = 1 ∨ pyIsLowerStr (w.drop 1)))
  let cleaned := stripLeadingNumbering lower_text
  let cleaned := stripLeadingRomanMulti cleaned
  let cleaned := stripLeadingRomanSingle cleaned
  let cleaned := stripStr cleaned
  let cleaned := stripLeadingBullets cleaned
  let cleaned := lstripChars " ,;:-".data cleaned
  if cleaned.isEmpty then "body_text" else
  if fullmatchDigitsNonword cleaned then "body_text" else
  let alpha_count := cleaned.countP pyIsAlphaChar
  if alpha_count ≤ 2 ∧ cleaned.length ≤ 6 then "body_text" else
  if containsSub lower_text "font size".data ∧
     ¬ containsSub lower_text "title".data ∧
     ¬ containsSub lower_text "figure".data ∧
     ¬ containsSub lower_text "table".data ∧
     (let simplified_heading := stripStr (stripParenGroups cleaned)
      ¬ allSectionKeywords.any (fun kw =>
          startsWithStr simplified_heading kw.data ||
          containsSub simplified_heading (" " ++ kw ++ " ").data))
  then "body_text" else
  if idx ≤ 1 ∧ containsSub lower_text "journal".data then "journal_name" else
  if font_size ≠ 0 ∧ font_size ≥ 20 then
    (if idx ≤ 1 then "journal_name" else "title") else
  if idx < 8 ∧ frontMatterTokens.any (fun t => containsSub lower_text t.data) then
    "journal_metadata" else
  if idx < 20 ∧ matches_registered_journal_metadata reg (⟨text⟩ : String) then
    "journal_metadata" else
  if idx < 20 ∧ ¬ containsSub lower_text "author".data ∧
     metadataKeywords.any (fun t => containsSub lower_text t.data) ∧
     (text.any pyIsDigitChar ∨ containsSub text ",".data ∨
      containsSub text ";".data)
  then "journal_metadata" else
  let styleHit : Option String :=
    if ¬ p_style.isEmpty then
      if containsSub p_style "subtitle".data then some "subtitle"
      else if containsSub p_style "title".data then some "title"
      else if containsSub p_style "heading".data || startsWithStr p_style "h".data then
        some ((["introduction", "abstract", "keywords", "conclusion",
                "references"].findSome? (fun sect =>
                  if wordBoundedSearch lower_text sect.data then some sect
                  else none)).getD "main_heading")
      else none
    else none
  match styleHit with
  | some s => s
  | none =>
  if (figBoundaryMatch cleaned || figNumberMatch cleaned || figDotNumberMatch cleaned) ∧
     text.length < 300 ∧
     ¬ (["abstract", "keyword", "reference"].any (fun t => containsSub cleaned t.data))
  then "figure_caption" else
  if (tabBoundaryMatch cleaned || tableNumberMatch cleaned) ∧ text.length < 300 then
    "table_caption" else
  let alignment := lowerStr ((paragraph.alignment.getD "").data)
  let non_lower_words := words.countP (fun w =>
    ¬ w.isEmpty ∧ w.any pyIsAlphaChar ∧ ¬ pyIsLowerStr w)
  if idx < 8 ∧ alignment = "center".data ∧ words.length ≥ 4 ∧
     titlecase_count ≥ 3 ∧ non_lower_words + 1 ≥ words.length ∧
     ¬ paragraph.bold
  then "title" else
  match keywordLoopFind cleaned with
  | some sect => sect
  | none =>
  if numberedHeadingMatch lower_text ∧ text.length < 200 then
    numberedHeadingFind lower_text else
  if idx < 12 ∧ (containsSub raw "@".data ∨ containsSub lower_text "correspond".data) then
    "corresponding_author" else
  if idx < 12 ∧ containsSub raw ",".data ∧
     ¬ (["department", "faculty", "school", "university"].any (fun t =>
          containsSub lower_text t.data)) ∧
     nameLikeSearch raw
  then "authors" else
  if ["received:", "accepted:", "published:"].any (fun t =>
       containsSub lower_text t.data)
  then "submission_history" else
  if idx < 4 ∧ words.length > 2 ∧ titlecase_count ≥ 2 ∧
     ¬ (["abstract", "keywords", "introduction", "conclusion",
         "references"].any (fun t => containsSub lower_text t.data))
  then "title" else
  "body_text"

/-- `classify_section_type`: explicit role tag first, then the text cascade. -/
def classify_section_type (reg : Registry) (paragraph : Paragraph) : String :=
  let role_tag := lowerStr (stripStr (paragraph.role_tag.getD "").data)
  if ¬ role_tag.isEmpty then
    let primary_role : List Char := (splitWs role_tag).getD 0 []
    match firstSome (ROLE_TAG_TO_SECTION.lookup (⟨role_tag⟩ : String))
                    (ROLE_TAG_TO_SECTION.lookup (⟨primary_role⟩ : String)) with
    | some mapped => mapped
    | none =>
      if startsWithStr primary_role "jiwe:heading".data then "main_heading"
      else if startsWithStr primary_role "jiwe:journal-header".data then "journal_name"
      else if startsWithStr primary_role "jiwe:journal-metadata".data then "journal_metadata"
      else if startsWithStr primary_role "jiwe:body".data then "body_text"
      else classify_text_rules reg paragraph
  else classify_text_rules reg paragraph

/-! ## XML element model

`RPr`, `XRun`, `XPara` hold exactly the attributes and child elements of
`w:rPr`, `w:r`, `w:p` that `backend.py` reads or writes.  An SDT-wrapped
paragraph carries its tag value in `roleTag` (the result of
`detect_paragraph_role`).  Boolean fields model the *presence* of the
`w:b` / `w:i` child elements, which is what the extractor tests. -/

structure RPr where
  sz : Option String := none
  szCs : Option String := none
  rFontsAscii : Option String := none
  rFontsHAnsi : Option String := none
  rFontsEastAsia : Option String := none
  rFontsCs : Option String := none
  b : Bool := false
  bCs : Bool := false
  i : Bool := false
  iCs : Bool := false
  highlights : List String := []
  deriving DecidableEq, Repr

structure XRun where
  rPr : Option RPr := none
  texts : List String := []
  deriving DecidableEq, Repr

structure XPara where
  pStyle : Option String := none
  jc : Option String := none
  pPrRPr : Option RPr := none
  roleTag : Option String := none
  runs : List XRun := []
  deriving DecidableEq, Repr

/-- Python truthiness filter for an optional attribute string. -/
def optTruthy (o : Option String) : Option String :=
  match o with
  | some v => if v.isEmpty then none else some v
  | none => none

/-- `normalize_font_name`. -/
def fontAliases : List (String × String) :=
  [("timesnewroman", "Times New Roman"),
   ("times roman", "Times New Roman"),
   ("times", "Times New Roman"),
   ("arial", "Arial"),
   ("helvetica", "Arial"),
   ("calibri", "Calibri"),
   ("cambria", "Cambria")]

def normalize_font_name (name : String) : String :=
  if name.isEmpty then ""
  else
    let name := pyStrip (pyLower name)
    match fontAliases.find? (fun p => inStr p.1 name) with
    | some p => p.2
    | none => ⟨pyTitle name.data⟩

/-- `fonts_similar`. -/
def fonts_similar (font1 font2 : String) : Bool :=
  let f1 := pyLower font1
  let f2 := pyLower font2
  let groups : List (List String) :=
    [["times new roman", "times", "timesroman"],
     ["arial", "helvetica"],
     ["calibri", "cambria"]]
  groups.any (fun g => g.contains f1 && g.contains f2) || f1 == f2

/-- `extract_run_formatting` (the parent paragraph supplies the
`w:pPr/w:rPr/w:rFonts` fallback the source reaches by climbing the tree). -/
def extract_run_formatting (run : XRun) (style_fonts : List (String × String))
    (default_font : Option String) (style_id : Option String) (para : XPara) :
    RunData :=
  match run.rPr with
  | none => {}
  | some rPr =>
    let size_val := firstSome (optTruthy rPr.sz) (optTruthy rPr.szCs)
    let d : RunData := {}
    let d :=
      match size_val with
      | some _ =>
        match normalize_half_points size_val with
        | some hp =>
          { d with font_size_w_val := some hp,
                   font_size := some (half_points_to_pt (hp : ℚ)) }
        | none => d
      | none => d
    let fn₀ := firstSome (optTruthy rPr.rFontsAscii) (optTruthy rPr.rFontsHAnsi)
    let d :=
      match fn₀ with
      | some n => { d with font_name := some (normalize_font_name n) }
      | none => d
    let d :=
      if d.font_name.isNone then
        match para.pPrRPr with
        | some prPr =>
          match firstSome (optTruthy prPr.rFontsAscii)
              (firstSome (optTruthy prPr.rFontsHAnsi)
                (firstSome (optTruthy prPr.rFontsEastAsia)
                  (optTruthy prPr.rFontsCs))) with
          | some n => { d with font_name := some (normalize_font_name n) }
          | none => d
        | none => d
      else d
    let d :=
      if d.font_name.isNone ∧ ¬ style_fonts.isEmpty then
        match style_id with
        | some sid =>
          match optTruthy (style_fonts.lookup sid) with
          | some n => { d with font_name := some n }
          | none => d
        | none => d
      else d
    let d :=
      if d.font_name.isNone then
        match default_font with
        | some df => { d with font_name := some df }
        | none => d
      else d
    { d with bold := rPr.b, italic := rPr.i }

/-- First-encountered-maximal element of a multiset of values
(`Counter(values).most_common(1)[0][0]`). -/
def mostCommon {α : Type} [DecidableEq α] (l : List α) : Option α :=
  let distinct := l.foldl (fun acc v => if acc.contains v then acc else acc ++ [v]) []
  distinct.foldl (fun best v =>
    match best with
    | none => some v
    | some b => if l.count v > l.count b then some v else best) none

/-- `get_dominant_formatting`. -/
def get_dominant_formatting (runs_data : List RunData) : Fmt :=
  if runs_data.isEmpty then {}
  else
    let font_sizes := (runs_data.filterMap (fun r => r.font_size)).filter (fun v => v ≠ 0)
    let font_size_vals := runs_data.filterMap (fun r => r.font_size_w_val)
    let font_names := runs_data.filterMap (fun r => r.font_name)
    let bold_count := runs_data.countP (fun r => r.bold)
    let italic_count := runs_data.countP (fun r => r.italic)
    let total_runs := runs_data.length
    let d : Fmt := {}
    let d :=
      if ¬ font_sizes.isEmpty then { d with font_size := mostCommon font_sizes }
      else if ¬ font_size_vals.isEmpty then
        { d with font_size := (mostCommon font_size_vals).map (fun hp => half_points_to_pt (hp : ℚ)) }
      else d
    let d :=
      if ¬ font_size_vals.isEmpty then { d with font_size_w_val := mostCommon font_size_vals } else d
    let d := if ¬ font_names.isEmpty then { d with font_name := mostCommon font_names } else d
    let d := if 2 * bold_count > total_runs then { d with bold := some true } else d
    if 2 * italic_count > total_runs then { d with italic := some true } else d

/-- `extract_paragraph_formatting`. -/
def extract_paragraph_formatting (p : XPara) (index : ℕ)
    (style_fonts : List (String × String)) (default_font : Option String) :
    Option Paragraph :=
  let p_style := p.pStyle
  let alignment := p.jc
  let runs_data := p.runs.filterMap (fun r =>
    let run_text := String.join (r.texts.filter (fun t => ¬ t.isEmpty))
    if run_text.isEmpty then none
    else some { extract_run_formatting r style_fonts default_font p_style p with
                  text := run_text })
  let texts := runs_data.map (fun r => r.text)
  if texts.isEmpty then none
  else
    let full_text := pyStrip ⟨List.intercalate " ".data (texts.map (fun t => t.data))⟩
    let dominant := get_dominant_formatting runs_data
    let dominant :=
      match optTruthy p_style with
      | some sid =>
        if ¬ style_fonts.isEmpty then
          match optTruthy (style_fonts.lookup sid) with
          | some sf => if dominant.font_name.isNone then { dominant with font_name := some sf } else dominant
          | none => dominant
        else dominant
      | none => dominant
    let dominant :=
      if dominant.font_name.isNone then
        match default_font with
        | some df => { dominant with font_name := some df }
        | none => dominant
      else dominant
    some { index := index
           text := full_text
           p_style := p_style
           font_size := dominant.font_size
           font_size_w_val := dominant.font_size_w_val
           font_name := dominant.font_name
           bold := dominant.bold.getD false
           italic := dominant.italic.getD false
           runs := runs_data
           role_tag := p.roleTag
           alignment := alignment }

/-- `extract_paragraphs_from_xml`. -/
def extract_paragraphs_from_xml (paras : List XPara)
    (style_fonts : List (String × String)) (default_font : Option String) :
    List Paragraph :=
  (paras.enum).filterMap (fun ip =>
    match extract_paragraph_formatting ip.2 ip.1 style_fonts default_font with
    | some pd => if (pyStrip pd.text).isEmpty then none else some pd
    | none => none)

/-! ## Text similarity (`difflib.SequenceMatcher(None, a, b).ratio()`)

The Ratcliff–Obershelp matcher of the Python standard library, without the
autojunk popularity heuristic (which only engages when the right-hand string
is longer than 199 characters; every comparison below is far shorter). -/

/-- Length of the common prefix of two character lists. -/
def commonRunLen : List Char → List Char → ℕ
  | a :: as, b :: bs => if a = b then commonRunLen as bs + 1 else 0
  | _, _ => 0

/-- `SequenceMatcher.find_longest_match` on `a[alo:ahi]`, `b[blo:bhi]`:
longest common block; ties broken towards the smallest start in `a`, then the
smallest start in `b`. -/
def findLongestMatch (a b : List Char) (alo ahi blo bhi : ℕ) : ℕ × ℕ × ℕ :=
  (List.range' alo (ahi - alo)).foldl (fun best i =>
    (List.range' blo (bhi - blo)).foldl (fun best j =>
      let k := min (commonRunLen (a.drop i) (b.drop j)) (min (ahi - i) (bhi - j))
      if k > best.2.2 then (i, j, k) else best) best)
    (alo, blo, 0)

/-- Total matched characters over the recursive block decomposition of
`get_matching_blocks` (fuel decreases once per recursion level; the summed
interval sizes shrink by at least two per level, so `|a| + |b| + 1` fuel
always suffices). -/
def matchSumAux (a b : List Char) : ℕ → ℕ → ℕ → ℕ → ℕ → ℕ
  | 0, _, _, _, _ => 0
  | fuel + 1, alo, ahi, blo, bhi =>
    let m := findLongestMatch a b alo ahi blo bhi
    if m.2.2 = 0 then 0
    else
      m.2.2 + matchSumAux a b fuel alo m.1 blo m.2.1 +
        matchSumAux a b fuel (m.1 + m.2.2) ahi (m.2.1 + m.2.2) bhi

/-- `text_similarity`. -/
def text_similarity (x y : String) : ℚ :=
  if x.isEmpty ∨ y.isEmpty then 0
  else
    let a := x.data
    let b := y.data
    qDiv (((2 * matchSumAux a b (a.length + b.length + 1) 0 a.length 0 b.length : ℕ)) : ℚ)
      (((a.length + b.length : ℕ)) : ℚ)

/-- `normalize_for_match`. -/
def normalize_for_match (text : String) : String :=
  ⟨stripStr (collapseRunsWith
      (fun c => ¬ (pyIsLowerChar c || pyIsDigitChar c || c = ' ')) ' '
      (collapseWs (replaceChar '\r' ' ' (replaceChar '\n' ' '
        (stripStr (lowerStr text.data))))))⟩

/-! ## Template profile -/

structure TemplateProfile where
  rules : List (String × Fmt)
  section_order : List String
  raw_examples : List (String × List Paragraph)
  custom_rules : List (String × Fmt) := []
  context_rules : List ((String × String) × Fmt) := []
  context_examples : List ((String × String) × List Paragraph) := []
  deriving DecidableEq, Repr

/-- `TemplateProfile.required_sections`. -/
def TemplateProfile.required_sections (p : TemplateProfile) : List String :=
  let excluded : List String :=
    ["body_text", "main_heading", "figure_caption", "table_caption",
     "submission_history", "journal_name", "journal_metadata", "subtitle"]
  let required := p.section_order.foldl (fun acc s =>
    if excluded.contains s then acc
    else if acc.contains s then acc
    else acc ++ [s]) []
  if required.isEmpty then ["title", "abstract", "keywords", "references"]
  else required

/-- `TemplateProfile.find_matching_example`. -/
def TemplateProfile.find_matching_example (self : TemplateProfile)
    (section_type : String) (paragraph_text : String)
    (context_section : Option String) : Option Paragraph × ℚ :=
  let examples : List Paragraph :=
    match context_section with
    | some ctx =>
      if ¬ self.context_examples.isEmpty then
        (self.context_examples.lookup (section_type, ctx)).getD []
      else []
    | none => []
  let examples :=
    if examples.isEmpty then (self.raw_examples.lookup section_type).getD []
    else examples
  if examples.isEmpty then (none, 0)
  else
    let target_norm := normalize_for_match paragraph_text
    let best := examples.foldl (fun (best : Option Paragraph × ℚ) ex =>
      let example_norm := normalize_for_match ex.text
      let score : ℚ :=
        if example_norm.isEmpty ∧ target_norm.isEmpty then 1
        else
          let s := text_similarity example_norm target_norm
          if ¬ target_norm.isEmpty ∧ inStr target_norm example_norm then
            max s (mkRat 95 100)
          else if ¬ example_norm.isEmpty ∧ inStr example_norm target_norm then
            max s (mkRat 95 100)
          else s
      if score > best.2 then (some ex, score) else best) (none, 0)
    if best.1.isSome ∧ best.2 ≥ mkRat 45 100 then best else (none, best.2)

/-- `apply_special_text_overrides`. -/
def apply_special_text_overrides (_section_type : String)
    (paragraph_text : String) (formatting : Fmt) : Fmt :=
  let special_key := normalize_special_key paragraph_text
  match SPECIAL_TEXT_FORMATTING_OVERRIDES.lookup special_key with
  | some overrides =>
    let result := formatting.update overrides
    let result :=
      if overrides.font_size.isSome ∧ overrides.font_size_w_val.isNone then
        if result.font_size_w_val.isNone then
          { result with font_size_w_val := some (pt_to_half_points (overrides.font_size.getD 0)) }
        else result
      else result
    ensure_font_size_pair result
  | none => ensure_font_size_pair formatting

/-- The per-key fill of the matched example into a formatting dictionary
(`for key in (...): if key not in fmt or fmt[key] is None: ...`); a
paragraph record always carries `bold` / `italic` keys. -/
def fillFromExample (fmt : Fmt) (ex : Paragraph) : Fmt where
  font_size := firstSome fmt.font_size ex.font_size
  font_size_w_val := firstSome fmt.font_size_w_val ex.font_size_w_val
  font_name := firstSome fmt.font_name ex.font_name
  bold := firstSome fmt.bold (some ex.bold)
  italic := firstSome fmt.italic (some ex.italic)

/-- `TemplateProfile.resolve_expected_format`. -/
def TemplateProfile.resolve_expected_format (self : TemplateProfile)
    (section_type : String) (paragraph_text : String)
    (context_section : Option String) : Fmt :=
  let base : Fmt := {}
  let base :=
    if ¬ self.custom_rules.isEmpty then
      match SECTION_TO_RULE_ROLE.lookup section_type with
      | some rule_role =>
        match self.custom_rules.lookup rule_role with
        | some cr => base.update cr
        | none => base
      | none => base
    else base
  let base :=
    match self.rules.lookup section_type with
    | some aggregated => base.setdefaults aggregated
    | none => base
  let base :=
    match context_section with
    | some ctx =>
      if ¬ self.context_rules.isEmpty then
        match self.context_rules.lookup (section_type, ctx) with
        | some context_fmt => base.update context_fmt
        | none => base
      else base
    | none => base
  let base :=
    match HARDCODED_SECTION_OVERRIDES.lookup section_type with
    | some override_fmt =>
      let b := base.update override_fmt
      if override_fmt.font_size.isSome ∧ b.font_size_w_val.isNone then
        { b with font_size_w_val := some (pt_to_half_points (override_fmt.font_size.getD 0)) }
      else b
    | none => base
  let base :=
    if section_type = "body_text" then
      match context_section with
      | some ctx =>
        let normalized_context := pyLower ctx
        let base :=
          if startsWithStr normalized_context.data "results and discussion".data then
            { base with bold := some false }
          else base
        if startsWithStr normalized_context.data "references".data then
          let b := { base with font_size := some 9, bold := some false }
          if b.font_size_w_val.isNone then
            { b with font_size_w_val := some (pt_to_half_points 9) }
          else b
        else base
      | none => base
    else base
  let base := ensure_font_size_pair base
  let base :=
    if base.isEmptyDict then
      ensure_font_size_pair (base.update ((self.rules.lookup "body_text").getD {}))
    else base
  let base := ensure_font_size_pair (base.setdefaults (get_default_formatting section_type))
  match self.find_matching_example section_type paragraph_text context_section with
  | (some ex, _) =>
    let fmt := ensure_font_size_pair (fillFromExample base ex)
    if ¬ fmt.isEmptyDict then apply_special_text_overrides section_type paragraph_text fmt
    else apply_special_text_overrides section_type paragraph_text (ensure_font_size_pair base)
  | (none, _) =>
    apply_special_text_overrides section_type paragraph_text (ensure_font_size_pair base)

/-! ## Template profile builder -/

/-- `is_valid_template_example`. -/
def is_valid_template_example (paragraph : Paragraph) : Bool :=
  let text := pyStrip paragraph.text
  if text.isEmpty then false
  else
    let alpha_chars := text.data.countP pyIsAlphaChar
    if alpha_chars = 0 then false
    else
      let condensed := deleteWs text.data
      if ¬ condensed.isEmpty then
        ¬ (10 * condensed.countP pyIsDigitChar > 6 * condensed.length ∧ alpha_chars < 6)
      else true

/-- Leftmost match of `(\d+(?:\.\d+)?)\s*-\s*font size`, returning the
captured number. -/
def sizeDashFontSearch (s : List Char) : Option ℚ :=
  (List.range (s.length + 1)).findSome? (fun i =>
    let t := s.drop i
    let ds := t.takeWhile pyIsDigitChar
    if ds.isEmpty then none
    else
      let afterInt := t.drop ds.length
      let tryRest : ℚ → List Char → Option ℚ := fun q r =>
        match r.dropWhile pyIsSpace with
        | '-' :: r2 =>
          if startsWithStr (r2.dropWhile pyIsSpace) "font size".data then some q
          else none
        | _ => none
      match afterInt with
      | '.' :: r =>
        let fs := r.takeWhile pyIsDigitChar
        if fs.isEmpty then tryRest (digitsToNat ds : ℚ) afterInt
        else
          match tryRest (qAdd (digitsToNat ds : ℚ)
                (qDiv (digitsToNat fs : ℚ) (((10 ^ fs.length : ℕ)) : ℚ)))
              (r.drop fs.length) with
          | some q => some q
          | none => tryRest (digitsToNat ds : ℚ) afterInt
      | _ => tryRest (digitsToNat ds : ℚ) afterInt)

/-- Leftmost match of `font size\s*(\d+(?:\.\d+)?)`, returning the captured
number. -/
def fontSizeAfterSearch (s : List Char) : Option ℚ :=
  (List.range (s.length + 1)).findSome? (fun i =>
    let t := s.drop i
    if startsWithStr t "font size".data then
      let r := (t.drop 9).dropWhile pyIsSpace
      let ds := r.takeWhile pyIsDigitChar
      if ds.isEmpty then none
      else
        match r.drop ds.length with
        | '.' :: fr =>
          let fs := fr.takeWhile pyIsDigitChar
          if fs.isEmpty then some (digitsToNat ds : ℚ)
          else some (qAdd (digitsToNat ds : ℚ)
            (qDiv (digitsToNat fs : ℚ) (((10 ^ fs.length : ℕ)) : ℚ)))
        | _ => some (digitsToNat ds : ℚ)
    else none)

/-- `infer_template_hints`. -/
def infer_template_hints (text : String) : Fmt :=
  if text.isEmpty then {}
  else
    let lower := pyLower text
    let size := firstSome (sizeDashFontSearch lower.data) (fontSizeAfterSearch lower.data)
    let bold : Option Bool :=
      if inStr "not bold" lower ∨ inStr "non-bold" lower ∨ inStr "without bold" lower then
        some false
      else if inStr "bold" lower then some true
      else none
    let italic : Option Bool :=
      if inStr "not italic" lower ∨ inStr "non-italic" lower ∨ inStr "without italic" lower then
        some false
      else if inStr "italic" lower then some true
      else none
    let font : Option String :=
      (["palatino linotype", "times new roman", "arial", "calibri",
        "cambria"].find? (fun f => inStr f lower)).map normalize_font_name
    { font_size := size, font_name := font, bold := bold, italic := italic }

/-- `score_template_example`. -/
def score_template_example (section_type : String) (paragraph : Paragraph) : ℚ :=
  let original_text := paragraph.text
  let text := pyLower original_text
  let hints := infer_template_hints original_text
  qAdd (if (paragraph.font_size.getD 0) ≠ 0 then (2 : ℚ) else 0)
    (qAdd (if ¬ (paragraph.font_name.getD "").isEmpty then (2 : ℚ) else 0)
    (qAdd (if paragraph.bold then mkRat 3 2 else 0)
    (qAdd (if paragraph.italic then mkRat 1 2 else 0)
    (qAdd (if hints.bold = some true then mkRat 3 2 else 0)
    (qAdd (if hints.font_size.isSome then (1 : ℚ) else 0)
    (qAdd (if hints.font_name.isSome then (1 : ℚ) else 0)
    (qAdd (if hints.italic = some true then mkRat 1 2 else 0)
    (qAdd (if (section_type = "title" ∨ section_type = "main_heading") ∧ paragraph.bold then
        mkRat 3 2 else 0)
    (qAdd (if section_type = "title" ∧ inStr "title" text then (1 : ℚ) else 0)
      (min (qDiv (text.data.countP pyIsAlphaChar : ℚ) 30) 1))))))))))

/-- Python `max(xs, key=f)`: first maximum. -/
def maxByFirst {α : Type} (f : α → ℚ) : List α → Option α
  | [] => none
  | x :: xs => some (xs.foldl (fun best v => if f v > f best then v else best) x)

/-- `determine_section_formatting`. -/
def determine_section_formatting (section_type : String)
    (examples : List Paragraph) : Fmt :=
  if examples.isEmpty then get_default_formatting section_type
  else
    let valid₀ := examples.filter is_valid_template_example
    let valid := if valid₀.isEmpty then examples else valid₀
    let formatting : Fmt :=
      { font_size := mostCommon (valid.filterMap (fun ex => ex.font_size))
        font_size_w_val := mostCommon (valid.filterMap (fun ex => ex.font_size_w_val))
        font_name := mostCommon (valid.filterMap (fun ex => ex.font_name))
        bold := mostCommon (valid.map (fun ex => ex.bold))
        italic := mostCommon (valid.map (fun ex => ex.italic)) }
    if ¬ formatting.isEmptyDict then
      let hints := valid.foldl (fun acc ex => acc.update (infer_template_hints ex.text)) ({} : Fmt)
      let formatting := formatting.setdefaults hints
      match maxByFirst (score_template_example section_type) valid with
      | some best_example =>
        let formatting :=
          { formatting with
              font_size := firstSome formatting.font_size best_example.font_size
              font_name := firstSome formatting.font_name best_example.font_name
              bold := firstSome formatting.bold (some best_example.bold)
              italic := firstSome formatting.italic (some best_example.italic) }
        let formatting :=
          if formatting.font_size_w_val.isNone ∧ best_example.font_size_w_val.isSome then
            { formatting with font_size_w_val := best_example.font_size_w_val }
          else formatting
        ensure_font_size_pair formatting
      | none => ensure_font_size_pair formatting
    else
      ensure_font_size_pair (get_default_formatting section_type)

/-- Append a value under a key of an insertion-ordered multimap
(`defaultdict(list)` access). -/
def assocAppend {κ : Type} [BEq κ] (m : List (κ × List Paragraph)) (k : κ)
    (v : Paragraph) : List (κ × List Paragraph) :=
  if (m.lookup k).isSome then
    m.map (fun p => if p.1 == k then (p.1, p.2 ++ [v]) else p)
  else m ++ [(k, [v])]

/-- The loop state of the first pass of `analyze_template_formatting`. -/
structure BuilderState where
  section_examples : List (String × List Paragraph) := []
  context_examples : List ((String × String) × List Paragraph) := []
  section_order : List String := []
  last_context_section : Option String := none
  reg : Registry := []

def heading_context_exclusions : List String :=
  ["figure_caption", "table_caption", "journal_metadata", "journal_name"]

/-- One iteration of the first pass of `analyze_template_formatting`
(classification consults, and registration extends, the registry state). -/
def builderStep (st : BuilderState) (para : Paragraph) : BuilderState :=
  let section_type := classify_section_type st.reg para
  let sexs := assocAppend st.section_examples section_type para
  let reg :=
    if section_type = "journal_metadata" then
      register_journal_metadata_example st.reg para.text
    else st.reg
  let order :=
    if st.section_order.contains section_type then st.section_order
    else st.section_order ++ [section_type]
  let (cexs, lastCtx) :=
    if section_type = "body_text" then
      match st.last_context_section with
      | some ctx => (assocAppend st.context_examples ("body_text", ctx) para, st.last_context_section)
      | none => (st.context_examples, st.last_context_section)
    else
      if heading_context_exclusions.contains section_type then
        (st.context_examples, st.last_context_section)
      else (st.context_examples, some section_type)
  { section_examples := sexs
    context_examples := cexs
    section_order := order
    last_context_section := lastCtx
    reg := reg }

/-- `analyze_template_formatting`: returns the profile together with the
registry state left behind by the metadata registrations. -/
def analyze_template_formatting (template_paragraphs : List Paragraph)
    (custom_rules : List (String × Fmt)) (reg : Registry) :
    TemplateProfile × Registry :=
  let st := template_paragraphs.foldl builderStep
    { section_examples := [], context_examples := [], section_order := [],
      last_context_section := none, reg := reg }
  let rules := st.section_examples.filterMap (fun p =>
    if p.2.isEmpty then none
    else some (p.1, determine_section_formatting p.1 p.2))
  let context_rules := st.context_examples.filterMap (fun p =>
    if p.2.isEmpty then none
    else some (p.1, determine_section_formatting p.1.1 p.2))
  ({ rules := rules
     section_order := st.section_order
     raw_examples := st.section_examples
     custom_rules := custom_rules
     context_rules := context_rules
     context_examples := st.context_examples }, st.reg)

/-! ## Findings and the comparator -/

structure Finding where
  type : String
  sectionName : String
  paragraph_indices : List ℕ
  pages : List ℕ
  found : String
  expected : String
  snippet : String
  suggested_fix : String
  deriving DecidableEq, Repr

/-- `text_snippet` (default length 140). -/
def text_snippet (s : String) : String :=
  if s.isEmpty then ""
  else
    let t := stripStr (replaceChar '\n' ' ' s.data)
    if t.length > 140 then (⟨t.take 140⟩ : String) ++ "..." else (⟨t⟩ : String)

/-- `create_finding`. -/
def create_finding (sect : String) (index : ℕ)
    (issue_type found expected snippet fix : String) : Finding where
  type := issue_type
  sectionName := sect
  paragraph_indices := [index]
  pages := [1 + index / 5]
  found := found
  expected := expected
  snippet := text_snippet snippet
  suggested_fix := fix

/-- Decimal display of a two-decimal rational, matching the shortest `repr`
Python prints for `round(x, 2)` (sizes are non-negative). -/
def ratDisplay2 (v : ℚ) : String :=
  let n : ℤ := pyRound (qMul v 100)
  let whole := n / 100
  let frac := (n % 100).toNat
  if frac = 0 then (⟨intToChars whole⟩ : String) ++ ".0"
  else if frac % 10 = 0 then (⟨intToChars whole⟩ : String) ++ "." ++ (⟨natToChars (frac / 10)⟩ : String)
  else (⟨intToChars whole⟩ : String) ++ "." ++ (if frac < 10 then "0" else "") ++ (⟨natToChars frac⟩ : String)

/-- `format_pt_display`. -/
def format_pt_display (value : Option ℚ) : Option String :=
  match value with
  | none => none
  | some numeric =>
    if qAbs (qSub numeric ((pyRound numeric : ℤ) : ℚ)) < mkRat 1 1000000 then
      some ((⟨intToChars (pyRound numeric)⟩ : String) ++ " pt")
    else some (ratDisplay2 (pyRound2 numeric) ++ " pt")

/-- `format_font_size_display`. -/
def format_font_size_display (pt : Option ℚ) (hp : Option ℤ) : String :=
  match hp, format_pt_display pt with
  | some h, some t => t ++ " (w:val=" ++ (⟨intToChars h⟩ : String) ++ ")"
  | some h, none => "w:val=" ++ (⟨intToChars h⟩ : String)
  | none, some t => t
  | none, none => "Not detected"

/-- `font_size_fix_text`. -/
def font_size_fix_text (expected_pt : Option ℚ) (expected_hp : Option ℤ) : String :=
  match format_pt_display expected_pt with
  | some t => "Set font size to " ++ t
  | none =>
    match expected_hp with
    | some h => "Adjust font size to match w:val " ++ (⟨intToChars h⟩ : String)
    | none => "Adjust font size to match the template"

/-- `should_flag_font_size_mismatch`. -/
def should_flag_font_size_mismatch (paragraph : Paragraph) (expected : Fmt) : Bool :=
  match expected.font_size_w_val, paragraph.font_size_w_val with
  | some expected_hp, some actual_hp => expected_hp ≠ actual_hp
  | _, _ =>
    match expected.font_size, paragraph.font_size with
    | some expected_pt, some actual_pt => qAbs (qSub expected_pt actual_pt) ≥ mkRat 1 2
    | _, _ => false

/-- `build_font_size_mismatch_finding`. -/
def build_font_size_mismatch_finding (paragraph : Paragraph) (expected : Fmt)
    (section_label : String) : Option Finding :=
  if ¬ should_flag_font_size_mismatch paragraph expected then none
  else
    some (create_finding section_label paragraph.index "font_size_mismatch"
      (format_font_size_display paragraph.font_size paragraph.font_size_w_val)
      (format_font_size_display expected.font_size expected.font_size_w_val)
      paragraph.text
      (font_size_fix_text expected.font_size expected.font_size_w_val))

def header_must_not_be_bold : List String :=
  ["acknowledgement", "acknowledgment", "introduction", "abstract",
   "conclusion", "references", "literature review", "research methodology",
   "results and discussions", "funding statement", "author contributions",
   "conflict of interests", "ethics statements", "biographies of authors",
   "main_heading"]

/-- `check_formatting_mismatches`. -/
def check_formatting_mismatches (paragraph : Paragraph) (section_type : String)
    (expected : Fmt) (display_section : Option String) : List Finding :=
  let text_lower := pyLower (pyStrip paragraph.text)
  let actual_bold := paragraph.bold
  let actual_italic := paragraph.italic
  let target_section := display_section.getD section_type
  let famCheck : List Finding :=
    match optTruthy expected.font_name, optTruthy paragraph.font_name with
    | some expected_font, some actual_font =>
      if ¬ fonts_similar expected_font actual_font then
        [create_finding target_section paragraph.index "font_family_mismatch"
          actual_font expected_font paragraph.text
          ("Set font to " ++ apos ++ expected_font ++ apos)]
      else []
    | _, _ => []
  let sizeCheck : List Finding :=
    match build_font_size_mismatch_finding paragraph expected target_section with
    | some f => [f]
    | none => []
  if section_type = "body_text" then
    let boldCheck : List Finding :=
      if paragraph.bold then
        [create_finding target_section paragraph.index "bold_incorrect"
          "bold" "not bold" paragraph.text "Remove bold formatting"]
      else []
    sizeCheck ++ famCheck ++ boldCheck
  else
    let expected_bold : Bool :=
      if section_type = "title" then expected.bold.getD false
      else if header_must_not_be_bold.any (fun h => startsWithStr text_lower.data h.data) then false
      else expected.bold.getD false
    let boldCheck : List Finding :=
      if expected_bold ≠ actual_bold then
        [create_finding target_section paragraph.index
          (if expected_bold ∧ ¬ actual_bold then "bold_missing" else "bold_incorrect")
          (if actual_bold then "bold" else "not bold")
          (if expected_bold then "bold" else "not bold")
          paragraph.text
          ("Set bold = " ++ (if expected_bold then "True" else "False"))]
      else []
    let italCheck : List Finding :=
      if section_type = "keywords" ∨ section_type = "corresponding_author" then
        if ¬ actual_italic then
          [create_finding target_section paragraph.index "italic_missing"
            "not italic" "italic" paragraph.text "Set to italic"]
        else []
      else if header_must_not_be_bold.contains section_type ∨
          section_type = "title" ∨ section_type = "references" then
        if actual_italic then
          [create_finding target_section paragraph.index "italic_incorrect"
            "italic" "not italic" paragraph.text "Remove italic formatting"]
        else []
      else []
    boldCheck ++ italCheck ++ sizeCheck ++ famCheck

/-- `compare_against_template` (threads the body-text heading context). -/
def compare_against_template (manuscript_paragraphs : List Paragraph)
    (template_profile : TemplateProfile) (reg : Registry) : List Finding :=
  (manuscript_paragraphs.foldl (fun (st : List Finding × Option String) para =>
    if (pyStrip para.text).isEmpty then st
    else
      let section_type := classify_section_type reg para
      let context_section := if section_type = "body_text" then st.2 else none
      let expected := template_profile.resolve_expected_format section_type para.text context_section
      let expected := if expected.isEmptyDict then get_default_formatting section_type else expected
      let display_section :=
        if section_type = "body_text" then
          match context_section with
          | some c => "body_text::" ++ c
          | none => "body_text::general"
        else section_type
      let lastCtx :=
        if section_type = "body_text" then st.2
        else if ¬ ["figure_caption", "table_caption", "journal_metadata",
                   "journal_name"].contains section_type then some section_type
        else st.2
      (st.1 ++ check_formatting_mismatches para section_type expected (some display_section),
       lastCtx)) ([], none)).1

/-- `check_missing_sections`.  The source materialises the result from a hash
set whose iteration order is implementation-defined; it is modelled here in
required-section order (no claim depends on the order of this list). -/
def check_missing_sections (manuscript_paragraphs : List Paragraph)
    (template_profile : TemplateProfile) (reg : Registry) : List String :=
  let manuscript_sections := manuscript_paragraphs.map (classify_section_type reg)
  let missing := template_profile.required_sections.filter
    (fun s => ¬ manuscript_sections.contains s)
  ["acknowledgement", "funding statement"].foldl (fun m s =>
    if ¬ manuscript_sections.contains s ∧ ¬ m.contains s then m ++ [s] else m)
    missing

/-- `format_section_label`. -/
def format_section_label (sect : String) : String :=
  if sect.isEmpty then "previous section"
  else (⟨pyTitle (replaceChar '_' ' ' sect.data)⟩ : String)

/-- Python `str` of a list of ints, e.g. `[3, 7]`. -/
def listIndicesRepr (l : List ℕ) : String :=
  "[" ++ (⟨List.intercalate ", ".data (l.map natToChars)⟩ : String) ++ "]"

/-- `check_section_order`. -/
def check_section_order (manuscript_paragraphs : List Paragraph)
    (template_profile : TemplateProfile) (reg : Registry) : List Finding :=
  let significant_sections := template_profile.section_order.filter (fun s =>
    (template_profile.rules.lookup s).isSome ∧
    ¬ ["body_text", "figure_caption", "table_caption"].contains s)
  let classified := manuscript_paragraphs.map (fun p => (classify_section_type reg p, p))
  let first_occurrence : String → Option Paragraph := fun s =>
    (classified.find? (fun c => c.1 = s)).map (fun c => c.2)
  let occurrences : String → List Paragraph := fun s =>
    (classified.filter (fun c => c.1 = s)).map (fun c => c.2)
  let walk := significant_sections.foldl
    (fun (st : List Finding × ℤ × Option String) sect =>
      match first_occurrence sect with
      | none => st
      | some para =>
        if (para.index : ℤ) < st.2.1 then
          (st.1 ++ [create_finding sect para.index "section_order_mismatch"
            ("Appears after " ++ format_section_label (st.2.2.getD ""))
            ("Before " ++ format_section_label (st.2.2.getD ""))
            para.text
            ("Move " ++ apos ++ format_section_label sect ++ apos ++
             " so it precedes " ++ apos ++ format_section_label (st.2.2.getD "") ++ apos)],
           st.2.1, st.2.2)
        else (st.1, (para.index : ℤ), some sect)) ([], -1, none)
  let dupFindings := significant_sections.filterMap (fun sect =>
    let occ := occurrences sect
    if occ.length > 1 then
      match occ.drop 1 with
      | first_extra :: _ =>
        some (create_finding sect first_extra.index "section_duplicate"
          ("Paragraphs " ++ listIndicesRepr ((occ.drop 1).map (fun p => p.index)))
          "Single occurrence" first_extra.text
          ("Retain one " ++ apos ++ format_section_label sect ++ apos ++
           " section matching the template sequence"))
      | [] => none
    else none)
  let fundingF :=
    match first_occurrence "funding statement", first_occurrence "references" with
    | some funding_para, some references_para =>
      if funding_para.index ≥ references_para.index then
        [create_finding "funding statement" funding_para.index "section_order_mismatch"
          "Does not appear immediately before References"
          "Immediately precede References"
          funding_para.text
          "Move the funding statement section so it is placed directly before the references section."]
      else []
    | _, _ => []
  walk.1 ++ dupFindings ++ fundingF

/-- `enforce_required_journal_metadata_line`. -/
def enforce_required_journal_metadata_line
    (manuscript_paragraphs : List Paragraph) (reg : Registry) : List Finding :=
  let required_key := normalize_special_key REQUIRED_JOURNAL_METADATA_LINE
  let metadata_paragraphs := manuscript_paragraphs.filter
    (fun p => classify_section_type reg p = "journal_metadata")
  if metadata_paragraphs.any (fun p =>
      ¬ required_key.isEmpty ∧ inStr required_key (normalize_special_key p.text)) then []
  else
    let tIndex := match metadata_paragraphs.head? with
      | some p => p.index
      | none => 0
    let tText := match metadata_paragraphs.head? with
      | some p => p.text
      | none => ""
    [create_finding "journal_metadata" tIndex "journal_metadata_missing_detail"
      "Required address line not found"
      ("Include " ++ apos ++ REQUIRED_JOURNAL_METADATA_LINE ++ apos)
      tText
      ("Insert the line " ++ apos ++ REQUIRED_JOURNAL_METADATA_LINE ++ apos ++
       " within the journal metadata block.")]

/-! ## `analyze_documents` -/

/-- A parsed view of one document package.  `none` for `documentXml` models a
missing or unparseable `word/document.xml` part; the secondary parts
(`customXml` rules, `word/styles.xml` fonts) are carried in the parsed form
the loader functions produce. -/
structure DocxContent where
  documentXml : Option (List XPara) := none
  customRules : List (String × Fmt) := []
  styleFonts : List (String × String) := []
  defaultFont : Option String := none
  deriving DecidableEq, Repr

/-- A document package source; `none` models a file that cannot be opened as
a zip archive. -/
abbrev Docx := Option DocxContent

/-- `docx_to_xml`: `None` when the archive cannot be opened, the main content
part is absent, or it does not parse. -/
def docx_to_xml (d : Docx) : Option (List XPara) :=
  d.bind (fun c => c.documentXml)

/-- `load_custom_rules`: empty on any failure. -/
def load_custom_rules (d : Docx) : List (String × Fmt) :=
  (d.map (fun c => c.customRules)).getD []

/-- `load_style_fonts`: `({}, None)` on any failure. -/
def load_style_fonts (d : Docx) : (List (String × String)) × Option String :=
  match d with
  | some c => (c.styleFonts, c.defaultFont)
  | none => ([], none)

/-- The local `missing_section_finding` of `analyze_documents`. -/
def missing_section_finding (section_name : String) : Finding :=
  let label := format_section_label section_name
  let defaultExpected := "Add the " ++ apos ++ label ++ apos ++ " section following the template order."
  let defaultFix := "Insert a " ++ apos ++ label ++ apos ++ " section matching template formatting."
  let notes :=
    if pyLower section_name = "acknowledgement" then
      ("Insert the highlighted acknowledgement heading and paragraph in Times New Roman 10 pt.",
       "Add an acknowledgement section using the default text: " ++ apos ++
       "The authors would like to thank the anonymous reviewers who have provided valuable suggestions to improve the article." ++ apos)
    else if pyLower section_name = "funding statement" then
      ("Insert the highlighted funding statement heading and paragraph in Times New Roman 10 pt before the References section.",
       "Add a funding statement section using the default text before the References section: " ++ apos ++
       "The authors received no funding from any party for the research and publication of this article" ++ apos ++ ".")
    else (defaultExpected, defaultFix)
  { type := "missing_section"
    sectionName := section_name
    paragraph_indices := []
    pages := []
    found := "Section not found"
    expected := notes.1
    snippet := ""
    suggested_fix := notes.2 }

/-- `analyze_documents`.  The third component models the XML previews
(present on success, `None` on parse failure); the registry state is threaded
explicitly. -/
def analyze_documents (template_file manuscript_file : Docx) (reg : Registry) :
    (List Finding × List String × Option Unit) × Registry :=
  let custom_rules := load_custom_rules template_file
  match docx_to_xml template_file, docx_to_xml manuscript_file with
  | some template_xml, some manuscript_xml =>
    let tsf := load_style_fonts template_file
    let msf := load_style_fonts manuscript_file
    let template_paragraphs := extract_paragraphs_from_xml template_xml tsf.1 tsf.2
    let manuscript_paragraphs := extract_paragraphs_from_xml manuscript_xml msf.1 msf.2
    let pr := analyze_template_formatting template_paragraphs custom_rules reg
    let findings := compare_against_template manuscript_paragraphs pr.1 pr.2
    let missing := check_missing_sections manuscript_paragraphs pr.1 pr.2
    let findings := findings ++ missing.map missing_section_finding
    let findings := findings ++ check_section_order manuscript_paragraphs pr.1 pr.2
    let findings := findings ++ enforce_required_journal_metadata_line manuscript_paragraphs pr.2
    ((findings, missing, some ()), pr.2)
  | _, _ => (([], ["Error: Could not parse documents"], none), reg)

/-! ## Mutators -/

/-- `ensure_highlight` (local function of `highlight_mistakes`): create the
`w:rPr` element if absent, then set the first `w:highlight` child's value to
yellow, creating the child if absent. -/
def ensure_highlight (run : XRun) : XRun :=
  let rPr := run.rPr.getD {}
  let highlights :=
    match rPr.highlights with
    | [] => ["yellow"]
    | _ :: t => "yellow" :: t
  { run with rPr := some { rPr with highlights := highlights } }

/-- The per-paragraph edit of `highlight_mistakes`: highlight every run. -/
def highlight_paragraph (p : XPara) : XPara :=
  { p with runs := p.runs.map ensure_highlight }

/-- The document-tree edit of `highlight_mistakes`: every paragraph whose
index is a key of the highlight map is highlighted (out-of-range keys are
skipped by the bounds check). -/
def highlight_mistakes_tree (idxs : List ℕ) (paras : List XPara) : List XPara :=
  (paras.enum).map (fun ip =>
    if idxs.contains ip.1 then highlight_paragraph ip.2 else ip.2)

/-- A zip package: named parts with byte contents, in archive order. -/
abbrev Package := List (String × List ℕ)

/-- The output-package loop of `highlight_mistakes`: replace the content part
with the updated document bytes, copy every other part byte-for-byte. -/
def highlight_repackage (pkg : Package) (updated_document_xml : List ℕ) : Package :=
  pkg.map (fun item =>
    if item.1 = "word/document.xml" then (item.1, updated_document_xml) else item)

/-- The identical output-package loop of `apply_corrections`. -/
def apply_corrections_repackage (pkg : Package) (updated_document_xml : List ℕ) : Package :=
  pkg.map (fun item =>
    if item.1 = "word/document.xml" then (item.1, updated_document_xml) else item)

/-- The identical output-package loop of `insert_missing_sections`. -/
def insert_missing_sections_repackage (pkg : Package) (updated_document_xml : List ℕ) : Package :=
  pkg.map (fun item =>
    if item.1 = "word/document.xml" then (item.1, updated_document_xml) else item)

/-- `apply_font_name_to_rpr`. -/
def apply_font_name_to_rpr (rPr : RPr) (font_name : String) : RPr :=
  { rPr with rFontsAscii := some font_name, rFontsHAnsi := some font_name,
             rFontsCs := some font_name, rFontsEastAsia := some font_name }

/-- `apply_font_size_to_rpr`. -/
def apply_font_size_to_rpr (rPr : RPr) (size_pt : ℚ) : RPr :=
  let hps : String := ⟨intToChars (pyRound (qMul size_pt 2))⟩
  { rPr with sz := some hps, szCs := some hps }

/-- `create_paragraph` (local function of `insert_missing_sections`). -/
def create_paragraph (text : String) (font_name : String) (size_pt : ℚ)
    (bold italic highlight : Bool) : XPara :=
  let rPr : RPr := {}
  let rPr := apply_font_name_to_rpr rPr font_name
  let rPr := apply_font_size_to_rpr rPr size_pt
  let rPr := if bold then { rPr with b := true, bCs := true } else rPr
  let rPr := if italic then { rPr with i := true, iCs := true } else rPr
  let rPr := if highlight then { rPr with highlights := rPr.highlights ++ ["yellow"] } else rPr
  { runs := [{ rPr := some rPr, texts := [text] }] }

/-- `paragraph_plain_text` (local function of `insert_missing_sections`). -/
def paragraph_plain_text (element : XPara) : String :=
  pyStrip (String.join (((element.runs.map (fun r => r.texts)).flatten).filter
    (fun t => ¬ t.isEmpty)))

/-- The two lists rebuilt by `rebuild_section_maps` (its `occurrences` /
`first_occurrence` dictionaries are never read afterwards). -/
structure SectionMaps where
  sections_by_index : List (Option String)
  body_context_sections : List (Option String)
  deriving DecidableEq, Repr

/-- `rebuild_section_maps`. -/
def rebuild_section_maps (reg : Registry) (sf : List (String × String))
    (df : Option String) (body_paras : List XPara) : SectionMaps :=
  let st := (body_paras.enum).foldl
    (fun (st : List (Option String) × List (Option String) × Option String) ip =>
      let para_dict := extract_paragraph_formatting ip.2 ip.1 sf df
      let sect : Option String := para_dict.map (classify_section_type reg)
      match sect with
      | some s =>
        if s ≠ "body_text" then
          let last' := if ¬ heading_context_exclusions.contains s then some s else st.2.2
          (st.1 ++ [some s], st.2.1 ++ [(none : Option String)], last')
        else (st.1 ++ [some s], st.2.1 ++ [st.2.2], st.2.2)
      | none => (st.1 ++ [(none : Option String)], st.2.1 ++ [(none : Option String)], st.2.2))
    ([], [], none)
  { sections_by_index := st.1, body_context_sections := st.2.1 }

/-- `logical_first_index`. -/
def logical_first_index (maps : SectionMaps) (section_name : String) : Option ℕ :=
  (List.range maps.sections_by_index.length).find? (fun i =>
    maps.sections_by_index.getD i none = some section_name ∨
    (maps.sections_by_index.getD i none = some "body_text" ∧
     maps.body_context_sections.getD i none = some section_name))

/-- `logical_last_index`. -/
def logical_last_index (maps : SectionMaps) (section_name : String) : Option ℕ :=
  ((List.range maps.sections_by_index.length).reverse).find? (fun i =>
    maps.sections_by_index.getD i none = some section_name ∨
    (maps.sections_by_index.getD i none = some "body_text" ∧
     maps.body_context_sections.getD i none = some section_name))

def ackHeadingText : String := "ACKNOWLEDGEMENT"

def ackContentText : String :=
  "The authors would like to thank the anonymous reviewers who have provided valuable suggestions to improve the article."

def fundingHeadingText : String := "FUNDING STATEMENT"

def fundingContentText : String :=
  "The authors received no funding from any party for the research and publication of this article"

/-- Python `list.insert` (clamping at the end). -/
def pyInsert {α : Type} (i : ℕ) (x : α) (l : List α) : List α :=
  l.take i ++ [x] ++ l.drop i

/-- The acknowledgement-span scan of `insertion_index_for` for the funding
statement: the end of the run of body-text / blank paragraphs following the
acknowledgement start. -/
def ackEndFrom (maps : SectionMaps) (body_paras : List XPara) (start : ℕ) : ℕ :=
  let n := maps.sections_by_index.length
  ((List.range' (start + 1) (n - (start + 1))).foldl
    (fun (st : ℕ × Bool) j =>
      if st.2 then st
      else
        let sect := maps.sections_by_index.getD j none
        let tn := normalize_special_key (paragraph_plain_text (body_paras.getD j {}))
        if sect = some "body_text" ∨ (sect = none ∧ tn.isEmpty) then (j, false)
        else (st.1, true))
    (start, false)).1

/-- `insertion_index_for`: the insertion index (which may equal the body
length) and, for the funding statement, the acknowledgement anchor index.
The source stores `funding_anchor_element = body_paras[ack_end_idx]` and
later recovers its position with `body_paras.index(anchor)`; list slots hold
distinct XML element objects compared by identity, so that call returns
exactly `ack_end_idx`, which is what the model records. -/
def insertion_index_for (effective_order : List String) (maps : SectionMaps)
    (body_paras : List XPara) (section_name : String) : Option ℕ × Option ℕ :=
  if effective_order.isEmpty then (none, none)
  else
    match effective_order.findIdx? (fun s => s = section_name) with
    | none => (none, none)
    | some s_idx =>
      if section_name = "funding statement" then
        let references_idx := logical_first_index maps "references"
        let ack_norm := normalize_special_key "acknowledgement"
        let n := maps.sections_by_index.length
        let ack_start_idx := (List.range n).find? (fun i =>
          maps.sections_by_index.getD i none = some "acknowledgement" ∨
          (maps.sections_by_index.getD i none = some "body_text" ∧
           maps.body_context_sections.getD i none = some "acknowledgement") ∨
          (let tn := normalize_special_key (paragraph_plain_text (body_paras.getD i {}))
           ¬ tn.isEmpty ∧ startsWithStr tn.data ack_norm.data))
        match ack_start_idx with
        | some start =>
          let ack_end_idx := ackEndFrom maps body_paras start
          let ip := ((List.range' (ack_end_idx + 1) (n - (ack_end_idx + 1))).foldl
            (fun (st : ℕ × Bool) j =>
              if st.2 then st
              else if maps.sections_by_index.getD j none = some "body_text" ∧
                  maps.body_context_sections.getD j none = some "acknowledgement" then
                (j + 1, false)
              else (st.1, true))
            (ack_end_idx + 1, false)).1
          let ip := match references_idx with
            | some r => if ip > r then r else ip
            | none => ip
          (some ip, some ack_end_idx)
        | none => (some (references_idx.getD body_paras.length), none)
      else
        match (effective_order.drop (s_idx + 1)).findSome?
            (fun nxt => logical_first_index maps nxt) with
        | some logical_idx => (some logical_idx, none)
        | none =>
          match ((effective_order.take s_idx).reverse).findSome?
              (fun prv => logical_last_index maps prv) with
          | some last_idx => (some (last_idx + 1), none)
          | none => (none, none)

/-- `insert_section` (local function of `insert_missing_sections`). -/
def insert_section (effective_order : List String) (reg : Registry)
    (sf : List (String × String)) (df : Option String) (section_key : String)
    (heading content : String) (body_paras : List XPara) : List XPara :=
  let maps := rebuild_section_maps reg sf df body_paras
  let r := insertion_index_for effective_order maps body_paras section_key
  let heading_bold := section_key ≠ "funding statement"
  let h_p := create_paragraph heading "Times New Roman" 10 heading_bold false true
  let c_p := create_paragraph content "Times New Roman" 10 false false true
  match (if section_key = "funding statement" then r.2 else none) with
  | some anchor_idx =>
    pyInsert (anchor_idx + 2) c_p (pyInsert (anchor_idx + 1) h_p body_paras)
  | none =>
    match r.1 with
    | some idx =>
      if idx ≥ body_paras.length then body_paras ++ [h_p, c_p]
      else pyInsert (idx + 1) c_p (pyInsert idx h_p body_paras)
    | none => body_paras ++ [h_p, c_p]

/-- The body-level paragraph edit of `insert_missing_sections`
(`effective_order` is the template-derived placement order computed
upstream). -/
def insert_missing_sections_body (effective_order : List String)
    (reg : Registry) (sf : List (String × String)) (df : Option String)
    (missing_sections : List String) (body_paras : List XPara) : List XPara :=
  if missing_sections.isEmpty then body_paras
  else
    let missing_norm := dedupKeepFirst (missing_sections.map (fun s => pyLower (pyStrip s)))
    let existing_texts := body_paras.map paragraph_plain_text
    let missing_norm := missing_norm.filter (fun k =>
      ¬ ((k = "acknowledgement" ∧ existing_texts.contains ackHeadingText ∧
          existing_texts.contains ackContentText) ∨
         (k = "funding statement" ∧ existing_texts.contains fundingHeadingText ∧
          existing_texts.contains fundingContentText)))
    let maps := rebuild_section_maps reg sf df body_paras
    let st :=
      if missing_norm.contains "acknowledgement" ∧ missing_norm.contains "funding statement" then
        match logical_first_index maps "references" with
        | some ref_idx =>
          let b1 := pyInsert (ref_idx + 1)
              (create_paragraph ackContentText "Times New Roman" 10 false false true)
              (pyInsert ref_idx
                (create_paragraph ackHeadingText "Times New Roman" 10 true false true)
                body_paras)
          let b2 := pyInsert (ref_idx + 3)
              (create_paragraph fundingContentText "Times New Roman" 10 false false true)
              (pyInsert (ref_idx + 2)
                (create_paragraph fundingHeadingText "Times New Roman" 10 false false true)
                b1)
          (b2, missing_norm.filter (fun k =>
            k ≠ "acknowledgement" ∧ k ≠ "funding statement"))
        | none => (body_paras, missing_norm)
      else (body_paras, missing_norm)
    let body₂ :=
      if st.2.contains "acknowledgement" then
        insert_section effective_order reg sf df "acknowledgement"
          ackHeadingText ackContentText st.1
      else st.1
    if st.2.contains "funding statement" then
      insert_section effective_order reg sf df "funding statement"
        fundingHeadingText fundingContentText body₂
    else body₂

/-! ## Supporting lemmas -/

theorem pyRound_floor_eq (q : ℚ) : q.num / (q.den : ℤ) = ⌊q⌋ :=
  (Rat.floor_def).symm

theorem pyRound_intCast (z : ℤ) : pyRound (z : ℚ) = z := by
  unfold pyRound
  simp only [pyRound_floor_eq, Int.floor_intCast, qSub_eq, sub_self]
  have h0 : (0 : ℚ) < mkRat 1 2 := by
    rw [Rat.mkRat_eq_div]
    norm_num
  rw [if_pos h0]

/-- Number of `w:highlight` children of a run's properties. -/
def countHighlights (r : XRun) : ℕ :=
  match r.rPr with
  | some rp => rp.highlights.length
  | none => 0

theorem ensure_highlight_idem (r : XRun) :
    ensure_highlight (ensure_highlight r) = ensure_highlight r := by
  obtain ⟨rPr, texts⟩ := r
  cases rPr with
  | none => rfl
  | some rp =>
    obtain ⟨sz, szCs, fa, fh, fe, fc, b, bCs, i, iCs, hl⟩ := rp
    cases hl <;> rfl

theorem highlight_paragraph_idem (p : XPara) :
    highlight_paragraph (highlight_paragraph p) = highlight_paragraph p := by
  unfold highlight_paragraph
  simp [List.map_map, Function.comp_def, ensure_highlight_idem]

theorem countHighlights_ensure (s : XRun) (h : countHighlights s ≤ 1) :
    countHighlights (ensure_highlight s) = 1 := by
  obtain ⟨rPr, texts⟩ := s
  cases rPr with
  | none => rfl
  | some rp =>
    obtain ⟨sz, szCs, fa, fh, fe, fc, b, bCs, i, iCs, hl⟩ := rp
    cases hl with
    | nil => rfl
    | cons a t =>
      simp only [countHighlights, List.length_cons] at h
      have ht : t = [] := List.eq_nil_of_length_eq_zero (by omega)
      subst ht
      rfl

theorem highlight_tree_get (idxs : List ℕ) (paras : List XPara) (i : ℕ) :
    (highlight_mistakes_tree idxs paras)[i]? =
      (paras[i]?).map (fun p => if idxs.contains i then highlight_paragraph p else p) := by
  unfold highlight_mistakes_tree
  rw [List.getElem?_map, List.getElem?_enum]
  cases paras[i]? <;> rfl

/-- C8: the highlight operation is idempotent — re-applying the highlight
edit for the same set of flagged paragraph indices leaves the document tree
unchanged — and after highlighting, every run of a flagged in-range
paragraph carries exactly one highlight attribute (given the well-formed
input in which no run already carries more than one). -/
theorem highlight_idempotent (idxs : List ℕ) (paras : List XPara) :
    highlight_mistakes_tree idxs (highlight_mistakes_tree idxs paras) =
      highlight_mistakes_tree idxs paras ∧
    (∀ i p r, idxs.contains i = true →
      (∀ q ∈ paras, ∀ s ∈ q.runs, countHighlights s ≤ 1) →
      (highlight_mistakes_tree idxs paras)[i]? = some p → r ∈ p.runs →
      countHighlights r = 1) := by
  constructor
  · apply List.ext_getElem?
    intro n
    rw [highlight_tree_get, highlight_tree_get]
    cases h : paras[n]? with
    | none => rfl
    | some a =>
      by_cases hc : n ∈ idxs
      · simp [hc, highlight_paragraph_idem]
      · simp [hc]
  · intro i p r hmem hpre hget hr
    rw [highlight_tree_get] at hget
    cases hq : paras[i]? with
    | none => rw [hq] at hget; simp at hget
    | some q =>
      rw [hq] at hget
      simp only [hmem, Option.map_some', if_true, Option.some.injEq] at hget
      subst hget
      simp only [highlight_paragraph, List.mem_map] at hr
      obtain ⟨s, hs, rfl⟩ := hr
      exact countHighlights_ensure s (hpre q (List.getElem?_mem hq) s hs)

/-- Witness for C8's hypotheses at a concrete document. -/
theorem highlight_idempotent_witness :
    ([0] : List ℕ).contains 0 = true ∧
    (∀ q ∈ [({ runs := [{ rPr := none, texts := ["x"] }] } : XPara)],
      ∀ s ∈ q.runs, countHighlights s ≤ 1) ∧
    (highlight_mistakes_tree [0]
        (highlight_mistakes_tree [0] [{ runs := [{ rPr := none, texts := ["x"] }] }]) =
      highlight_mistakes_tree [0] [{ runs := [{ rPr := none, texts := ["x"] }] }]) ∧
    (∀ p r,
      (highlight_mistakes_tree [0] [({ runs := [{ rPr := none, texts := ["x"] }] } : XPara)])[0]? = some p →
      r ∈ p.runs → countHighlights r = 1) := by
  refine ⟨by decide, by decide, (highlight_idempotent [0] _).1, ?_⟩
  intro p r hget hr
  exact (highlight_idempotent [0] _).2 0 p r (by decide) (by decide) hget hr

/-- C9: each of the three mutators re-serialises only `word/document.xml`;
every other part of the output package is byte-for-byte the corresponding
part of the input package. -/
theorem repackage_preserves_other_parts (pkg : Package) (doc : List ℕ)
    (i : ℕ) (nm : String) (bytes : List ℕ)
    (hget : pkg[i]? = some (nm, bytes)) (hname : nm ≠ "word/document.xml") :
    (highlight_repackage pkg doc)[i]? = some (nm, bytes) ∧
    (apply_corrections_repackage pkg doc)[i]? = some (nm, bytes) ∧
    (insert_missing_sections_repackage pkg doc)[i]? = some (nm, bytes) := by
  refine ⟨?_, ?_, ?_⟩ <;>
    simp [highlight_repackage, apply_corrections_repackage,
      insert_missing_sections_repackage, List.getElem?_map, hget, hname]

/-- Witness for C9 at a concrete two-part package. -/
theorem repackage_preserves_other_parts_witness :
    (([("word/styles.xml", [1, 2]), ("word/document.xml", [3])] : Package)[0]? =
      some ("word/styles.xml", [1, 2])) ∧
    ("word/styles.xml" ≠ "word/document.xml") ∧
    (highlight_repackage [("word/styles.xml", [1, 2]), ("word/document.xml", [3])] [9])[0]? =
      some ("word/styles.xml", [1, 2]) ∧
    (apply_corrections_repackage [("word/styles.xml", [1, 2]), ("word/document.xml", [3])] [9])[0]? =
      some ("word/styles.xml", [1, 2]) ∧
    (insert_missing_sections_repackage [("word/styles.xml", [1, 2]), ("word/document.xml", [3])] [9])[0]? =
      some ("word/styles.xml", [1, 2]) := by
  have h := repackage_preserves_other_parts
    [("word/styles.xml", [1, 2]), ("word/document.xml", [3])] [9] 0
    "word/styles.xml" [1, 2] (by decide) (by decide)
  exact ⟨by decide, by decide, h.1, h.2.1, h.2.2⟩

/-- C2: if either input package cannot be opened or lacks its main content
part, `analyze_documents` fails closed with no findings and the sentinel
missing-section list (and no previews, registry untouched). -/
theorem analyze_documents_fails_closed (t m : Docx) (reg : Registry)
    (h : docx_to_xml t = none ∨ docx_to_xml m = none) :
    analyze_documents t m reg = (([], ["Error: Could not parse documents"], none), reg) := by
  unfold analyze_documents
  rcases h with h | h
  · rw [h]
  · rw [h]
    cases docx_to_xml t <;> rfl

/-- Witness for C2: an unopenable template package. -/
theorem analyze_documents_fails_closed_witness :
    (docx_to_xml (none : Docx) = none ∨ docx_to_xml (some {} : Docx) = none) ∧
    analyze_documents (none : Docx) (some {}) [] =
      (([], ["Error: Could not parse documents"], none), []) :=
  ⟨Or.inl rfl, analyze_documents_fails_closed none (some {}) [] (Or.inl rfl)⟩

/-! ## C3: the font-size pair invariant -/

/-- A template profile whose aggregated title statistics say 10 pt (half
points 20) — exactly what the builder produces from a template whose title
paragraphs are set in 10 pt. -/
def titleTenPtProfile : TemplateProfile where
  rules := [("title",
    { font_size := some 10, font_size_w_val := some 20,
      font_name := some "Times New Roman", bold := some false })]
  section_order := ["title"]
  raw_examples := []

/-- C3 counterexample: the resolver's hard-coded title override replaces the
pt field (24) but leaves the aggregated half-point field (20), so the
returned `ExpectedFormat` has both fields populated with
`halfPoints ≠ round(pt × 2)`. -/
theorem resolve_title_pair_mismatch_cex :
    (titleTenPtProfile.resolve_expected_format "title" "Sample Manuscript Title" none).font_size
        = some 24 ∧
    (titleTenPtProfile.resolve_expected_format "title" "Sample Manuscript Title" none).font_size_w_val
        = some 20 ∧
    pyRound ((24 : ℚ) * 2) ≠ (20 : ℤ) :=
  ⟨rfl, rfl, by
    have h48 : ((24 : ℚ) * 2) = ((48 : ℤ) : ℚ) := by norm_num
    rw [h48, pyRound_intCast]
    decide⟩

/-- C3 amended: whenever exactly one of the two size fields is populated,
`ensure_font_size_pair` fills the other so that the pair satisfies
`halfPoints = round(pt × 2)` (Python's round-half-to-even). -/
theorem ensure_font_size_pair_fills_consistent (f : Fmt)
    (h : (f.font_size.isSome ∧ f.font_size_w_val = none) ∨
         (f.font_size = none ∧ f.font_size_w_val.isSome)) :
    ∃ pt hp, (ensure_font_size_pair f).font_size = some pt ∧
      (ensure_font_size_pair f).font_size_w_val = some hp ∧
      hp = pyRound (pt * 2) := by
  rcases h with ⟨hs, hn⟩ | ⟨hn, hs⟩
  · obtain ⟨pt, hpt⟩ := Option.isSome_iff_exists.mp hs
    refine ⟨pt, pt_to_half_points pt, ?_, ?_, ?_⟩
    · unfold ensure_font_size_pair
      rw [hn, hpt]
    · unfold ensure_font_size_pair
      rw [hn, hpt]
    · unfold pt_to_half_points
      rw [qMul_eq]
  · obtain ⟨hp, hhp⟩ := Option.isSome_iff_exists.mp hs
    refine ⟨half_points_to_pt (hp : ℚ), hp, ?_, ?_, ?_⟩
    · unfold ensure_font_size_pair
      rw [hn, hhp]
    · unfold ensure_font_size_pair
      rw [hn, hhp]
    · have hhalf : half_points_to_pt (hp : ℚ) = (hp : ℚ) / 2 := by
        unfold half_points_to_pt pyRound2
        rw [show qDiv ((hp : ℚ)) 2 = (hp : ℚ) / 2 from by rw [qDiv_eq]]
        rw [show qMul ((hp : ℚ) / 2) 100 = ((50 * hp : ℤ) : ℚ) from by
          rw [qMul_eq]
          push_cast
          ring]
        rw [pyRound_intCast, qDiv_eq]
        push_cast
        ring
      rw [hhalf]
      have h2 : (hp : ℚ) / 2 * 2 = ((hp : ℤ) : ℚ) := by
        ring
      rw [h2, pyRound_intCast]

/-- Witness for C3's amended statement at a concrete 10 pt dictionary. -/
theorem ensure_font_size_pair_fills_consistent_witness :
    ((({ font_size := some 10 } : Fmt).font_size.isSome ∧
      ({ font_size := some 10 } : Fmt).font_size_w_val = none) ∨
     (({ font_size := some 10 } : Fmt).font_size = none ∧
      ({ font_size := some 10 } : Fmt).font_size_w_val.isSome)) ∧
    ∃ pt hp, (ensure_font_size_pair { font_size := some 10 }).font_size = some pt ∧
      (ensure_font_size_pair { font_size := some 10 }).font_size_w_val = some hp ∧
      hp = pyRound (pt * 2) :=
  ⟨Or.inl ⟨by decide, rfl⟩,
   ensure_font_size_pair_fills_consistent { font_size := some 10 }
     (Or.inl ⟨by decide, rfl⟩)⟩

/-- C1: a 12 pt bold `introduction` paragraph checked against a
{10 pt, Times New Roman, not bold} rule with a matching font family yields
exactly a `bold_incorrect` finding and a `font_size_mismatch` finding with
found value 12 pt and expected value 10 pt. -/
theorem intro_size_bold_two_findings (p : Paragraph) (fn : String)
    (hb : p.bold = true) (hi : p.italic = false)
    (hsz : p.font_size = some 12) (hhp : p.font_size_w_val = none)
    (hfn : p.font_name = some fn) (hne : fn.isEmpty = false)
    (hfam : fonts_similar "Times New Roman" fn = true) :
    check_formatting_mismatches p "introduction"
      { font_size := some 10, font_size_w_val := none,
        font_name := some "Times New Roman", bold := some false, italic := none }
      none =
    [create_finding "introduction" p.index "bold_incorrect"
       "bold" "not bold" p.text "Set bold = False",
     create_finding "introduction" p.index "font_size_mismatch"
       "12 pt" "10 pt" p.text "Set font size to 10 pt"] := by
  unfold check_formatting_mismatches build_font_size_mismatch_finding
    should_flag_font_size_mismatch
  rw [hb, hi, hfn, hsz, hhp]
  simp only [optTruthy, hne, Bool.false_eq_true, if_false, hfam,
    Option.getD_some, Option.getD_none, ite_self]
  simp
  rw [if_neg (by decide : ¬ qAbs (qSub 10 12) < mkRat 1 2)]
  have h12 : format_font_size_display (some 12) none = "12 pt" := by decide
  have h10 : format_font_size_display (some 10) none = "10 pt" := by decide
  have hfix : font_size_fix_text (some 10) none = "Set font size to 10 pt" := by decide
  rw [h12, h10, hfix]
  rw [show (if ("Times New Roman" : String).isEmpty = true then none else some "Times New Roman") = some "Times New Roman" from rfl]
  simp [hfam]

/-- Witness for C1 at a concrete introduction paragraph. -/
theorem intro_size_bold_two_findings_witness :
    check_formatting_mismatches
      { index := 0, text := "Introduction", font_size := some 12,
        font_size_w_val := none, font_name := some "Times New Roman",
        bold := true, italic := false }
      "introduction"
      { font_size := some 10, font_size_w_val := none,
        font_name := some "Times New Roman", bold := some false, italic := none }
      none =
    [create_finding "introduction" 0 "bold_incorrect"
       "bold" "not bold" "Introduction" "Set bold = False",
     create_finding "introduction" 0 "font_size_mismatch"
       "12 pt" "10 pt" "Introduction" "Set font size to 10 pt"] :=
  intro_size_bold_two_findings _ "Times New Roman" rfl rfl rfl rfl rfl
    (by decide) (by decide)

/-- A template paragraph carrying the journal-metadata role tag; processing it
registers its token set in the journal-metadata exemplar registry, which the
source keeps in the module-global `JOURNAL_METADATA_TOKEN_SETS` and never
clears between analysis calls. -/
def tpFour : Paragraph :=
  { index := 0, text := "alpha beta gamma delta",
    role_tag := some "jiwe:journal-metadata" }

/-- A manuscript paragraph whose classification depends on the accumulated
exemplar registry. -/
def mpFour : Paragraph := { index := 5, text := "alpha beta gamma" }

/-- C4: the section classifier is not a pure function of the paragraph record:
analysing a template deposits exemplar state (kept by the source in a
module-level global that persists across analysis calls), and the very same
paragraph record classifies differently depending on that accumulated state. -/
theorem classify_depends_on_registry_state :
    (analyze_template_formatting [tpFour] [] []).2 =
      [["alpha", "beta", "gamma", "delta"]] ∧
    classify_section_type [["alpha", "beta", "gamma", "delta"]] mpFour =
      "journal_metadata" ∧
    classify_section_type [] mpFour = "body_text" ∧
    (classify_section_type [["alpha", "beta", "gamma", "delta"]] mpFour ==
      classify_section_type [] mpFour) = false :=
  ⟨by decide, by decide, by decide, by decide⟩

def orderScenarioProfile : TemplateProfile :=
  { rules := [("title", { bold := some true }), ("abstract", { bold := some false }),
              ("introduction", { bold := some false }), ("references", { bold := some false })],
    section_order := ["title", "abstract", "introduction", "references"],
    raw_examples := [] }

def introAtThree : Paragraph := { index := 3, text := "Introduction" }
def abstractAtSeven : Paragraph := { index := 7, text := "Abstract" }

/-- C5 counterexample: with template order
[title, abstract, introduction, references], `introduction` first at index 3
and `abstract` first at index 7, the single order-mismatch finding is anchored
at the `introduction` occurrence (index 3), not at the out-of-order
`abstract` occurrence (index 7) as the claim states. -/
theorem check_section_order_anchor_cex :
    classify_section_type [] introAtThree = "introduction" ∧
    classify_section_type [] abstractAtSeven = "abstract" ∧
    (check_section_order [introAtThree, abstractAtSeven]
        orderScenarioProfile []).length = 1 ∧
    (check_section_order [introAtThree, abstractAtSeven]
        orderScenarioProfile []).all
      (fun f => f.sectionName ≠ "abstract" ∧ f.paragraph_indices ≠ [7]) :=
  ⟨by decide, by decide, by decide, by decide⟩

/-- C5 amended: in that scenario the comparator emits exactly one
order-mismatch finding, and it is anchored at the occurrence of the section
the template requires earlier (`introduction`, index 3), reporting that it
appears after Abstract. -/
theorem check_section_order_anchor_amended :
    check_section_order [introAtThree, abstractAtSeven] orderScenarioProfile []
      = [create_finding "introduction" 3 "section_order_mismatch"
          "Appears after Abstract" "Before Abstract" "Introduction"
          ("Move " ++ apos ++ "Introduction" ++ apos ++ " so it precedes " ++
           apos ++ "Abstract" ++ apos)] := by
  decide

theorem ensure_font_size_pair_bold (f : Fmt) :
    (ensure_font_size_pair f).bold = f.bold := by
  unfold ensure_font_size_pair
  rcases f.font_size_w_val with _ | hp <;> rcases hsz : f.font_size with _ | pt <;> simp

theorem apply_special_bold (s t : String) (f : Fmt) (h : f.bold = some false) :
    (apply_special_text_overrides s t f).bold = some false := by
  unfold apply_special_text_overrides
  rcases hl : SPECIAL_TEXT_FORMATTING_OVERRIDES.lookup (normalize_special_key t) with _ | o
  · simp only [hl, ensure_font_size_pair_bold, h]
  · have ho : o.bold = some false := by
      simp only [SPECIAL_TEXT_FORMATTING_OVERRIDES, List.lookup] at hl
      split at hl
      · exact (Option.some_injective _ hl.symm) ▸ rfl
      · split at hl
        · exact (Option.some_injective _ hl.symm) ▸ rfl
        · exact absurd hl (by simp)
    simp only [hl]
    rw [ensure_font_size_pair_bold]
    split
    · split
      · simp [Fmt.update, firstSome, ho]
      · simp [Fmt.update, firstSome, ho]
    · simp [Fmt.update, firstSome, ho]

/-- A template profile carrying only overlay (structured custom) rules. -/
def overlayProfile (cr : List (String × Fmt)) : TemplateProfile :=
  { rules := [], section_order := [], raw_examples := [], custom_rules := cr }

theorem setdefaults_bold_some (x d : Fmt) (b : Bool) (h : x.bold = some b) :
    (x.setdefaults d).bold = some b := by
  simp [Fmt.setdefaults, firstSome, h]

theorem isEmptyDict_false_of_bold (x : Fmt) (b : Bool) (h : x.bold = some b) :
    x.isEmptyDict = false := by
  simp [Fmt.isEmptyDict, h]

theorem emptyBranchBold (x rb : Fmt) (hx : x.bold = some false) :
    (if x.isEmptyDict = true then ensure_font_size_pair (x.update rb) else x).bold
      = some false := by
  rw [isEmptyDict_false_of_bold x false hx]
  simpa using hx

theorem resolve_title_bold_pinned_aux (cr : List (String × Fmt)) (text : String) :
    ((overlayProfile cr).resolve_expected_format "title" text none).bold = some false := by
  have h1 : List.lookup "title" SECTION_TO_RULE_ROLE = some "title" := by decide
  have h2 : List.lookup "title" HARDCODED_SECTION_OVERRIDES =
      some { font_size := some 24, bold := some false } := by decide
  unfold overlayProfile TemplateProfile.resolve_expected_format
    TemplateProfile.find_matching_example
  dsimp only
  rw [h1, h2]
  simp only [List.lookup, List.isEmpty_nil, Option.getD_none, if_true,
    eq_self_iff_true, String.reduceEq, reduceIte]
  apply apply_special_bold
  rw [ensure_font_size_pair_bold, ensure_font_size_pair_bold]
  apply setdefaults_bold_some
  apply emptyBranchBold
  rw [ensure_font_size_pair_bold]
  split <;> (try split) <;> simp [Fmt.update, firstSome]

theorem build_font_size_type (p : Paragraph) (E : Fmt) (s : String) (fnd : Finding)
    (h : build_font_size_mismatch_finding p E s = some fnd) :
    fnd.type = "font_size_mismatch" := by
  unfold build_font_size_mismatch_finding at h
  split at h
  · exact absurd h (by simp)
  · cases h
    rfl

/-- C6 amended: the bold expectation for `title` paragraphs is pinned to
False by the hard-coded override table, which is applied after (and hence
wins over) any overlay of structured custom rules; consequently, under a
resolved expectation whose bold field is False, a non-bold title paragraph
raises no bold finding and a bold one raises `bold_incorrect`. -/
theorem title_bold_expectation_amended (cr : List (String × Fmt)) (text : String)
    (p : Paragraph) (E : Fmt) (d : Option String) (hE : E.bold = some false) :
    ((overlayProfile cr).resolve_expected_format "title" text none).bold = some false ∧
    (p.bold = false →
      ((check_formatting_mismatches p "title" E d).all
        (fun f => f.type ≠ "bold_missing" ∧ f.type ≠ "bold_incorrect")) = true) ∧
    (p.bold = true →
      ((check_formatting_mismatches p "title" E d).map Finding.type).contains
        "bold_incorrect" = true) := by
  refine ⟨resolve_title_bold_pinned_aux cr text, ?_, ?_⟩
  · intro hb
    unfold check_formatting_mismatches
    rw [hE, hb]
    simp only [Option.getD_some, String.reduceEq, reduceIte, if_true, if_false]
    simp only [List.all_append, Bool.and_eq_true]
    refine ⟨⟨⟨by simp, ?_⟩, ?_⟩, ?_⟩
    · simp [create_finding]
    · rcases hm : build_font_size_mismatch_finding p E (d.getD "title") with _ | fnd
      · simp [hm]
      · have ht := build_font_size_type _ _ _ _ hm
        simp [hm, ht]
    · split <;> simp [create_finding]
  · intro hb
    unfold check_formatting_mismatches
    rw [hE, hb]
    simp only [Option.getD_some, String.reduceEq, reduceIte, if_true, if_false]
    simp [create_finding]

def titleNonBold : Paragraph :=
  { index := 5, text := "A Comprehensive Study of Widget Dynamics",
    font_size := some 24, font_size_w_val := some 48,
    font_name := some "Times New Roman", bold := false, italic := false }

def titleBold : Paragraph := { titleNonBold with bold := true }

/-- C6 counterexample: with no overlay at all the resolved bold expectation
for a paragraph classified `title` is False (not True as claimed): the
non-bold title paragraph raises no finding whatsoever (the claim predicts
`bold_missing`), while the bold variant raises `bold_incorrect` (the claim
predicts no bold finding). -/
theorem title_bold_expectation_cex :
    classify_section_type [] titleNonBold = "title" ∧
    ((overlayProfile []).resolve_expected_format "title" titleNonBold.text none).bold
      = some false ∧
    check_formatting_mismatches titleNonBold "title"
      ((overlayProfile []).resolve_expected_format "title" titleNonBold.text none)
      (some "title") = [] ∧
    (check_formatting_mismatches titleBold "title"
      ((overlayProfile []).resolve_expected_format "title" titleBold.text none)
      (some "title")).map Finding.type = ["bold_incorrect"] :=
  ⟨by decide, by decide, by decide, by decide⟩

/-- Witness for C6's amended statement with an empty overlay and a bold
title paragraph. -/
theorem title_bold_expectation_amended_witness :
    ((overlayProfile []).resolve_expected_format "title" "Sample Title" none).bold
      = some false ∧
    (titleBold.bold = false →
      ((check_formatting_mismatches titleBold "title" { bold := some false }
        (some "title")).all
        (fun f => f.type ≠ "bold_missing" ∧ f.type ≠ "bold_incorrect")) = true) ∧
    (titleBold.bold = true →
      ((check_formatting_mismatches titleBold "title" { bold := some false }
        (some "title")).map Finding.type).contains "bold_incorrect" = true) :=
  title_bold_expectation_amended [] "Sample Title" titleBold
    { bold := some false } (some "title") rfl

theorem pyInsert_exact {α : Type} (A B : List α) (x : α) :
    pyInsert A.length x (A ++ B) = A ++ [x] ++ B := by
  unfold pyInsert
  rw [List.take_left, List.drop_left]

theorem pyInsert4 {α : Type} (n : ℕ) (l : List α) (a b c d : α)
    (h : n ≤ l.length) :
    pyInsert (n + 3) d (pyInsert (n + 2) c (pyInsert (n + 1) b
      (pyInsert n a l))) =
    l.take n ++ [a, b, c, d] ++ l.drop n := by
  have hT : (l.take n).length = n := by
    simp only [List.length_take]
    omega
  have h0 : pyInsert n a l = l.take n ++ [a] ++ l.drop n := by
    have := pyInsert_exact (l.take n) (l.drop n) a
    rw [hT, List.take_append_drop] at this
    exact this
  have h1 : pyInsert (n + 1) b (l.take n ++ [a] ++ l.drop n)
      = (l.take n ++ [a]) ++ [b] ++ l.drop n := by
    have := pyInsert_exact (l.take n ++ [a]) (l.drop n) b
    rw [List.length_append, hT] at this
    simpa [List.append_assoc] using this
  have h2 : pyInsert (n + 2) c ((l.take n ++ [a]) ++ [b] ++ l.drop n)
      = ((l.take n ++ [a]) ++ [b]) ++ [c] ++ l.drop n := by
    have := pyInsert_exact ((l.take n ++ [a]) ++ [b]) (l.drop n) c
    rw [List.length_append, List.length_append, hT] at this
    simpa [List.append_assoc] using this
  have h3 : pyInsert (n + 3) d (((l.take n ++ [a]) ++ [b]) ++ [c] ++ l.drop n)
      = (((l.take n ++ [a]) ++ [b]) ++ [c]) ++ [d] ++ l.drop n := by
    have := pyInsert_exact (((l.take n ++ [a]) ++ [b]) ++ [c]) (l.drop n) d
    rw [List.length_append, List.length_append, List.length_append, hT] at this
    simpa [List.append_assoc] using this
  rw [h0, h1, h2, h3]
  simp [List.append_assoc]

theorem insert_both_before_references_aux (eo : List String) (reg : Registry)
    (sf : List (String × String)) (df : Option String) (body : List XPara)
    (h40 : logical_first_index (rebuild_section_maps reg sf df body) "references" = some 40)
    (hlen : 40 ≤ body.length)
    (hA : ¬ ((body.map paragraph_plain_text).contains ackHeadingText = true ∧
             (body.map paragraph_plain_text).contains ackContentText = true))
    (hF : ¬ ((body.map paragraph_plain_text).contains fundingHeadingText = true ∧
             (body.map paragraph_plain_text).contains fundingContentText = true)) :
    insert_missing_sections_body eo reg sf df
        ["acknowledgement", "funding statement"] body =
      body.take 40 ++
      [create_paragraph ackHeadingText "Times New Roman" 10 true false true,
       create_paragraph ackContentText "Times New Roman" 10 false false true,
       create_paragraph fundingHeadingText "Times New Roman" 10 false false true,
       create_paragraph fundingContentText "Times New Roman" 10 false false true] ++
      body.drop 40 := by
  unfold insert_missing_sections_body
  simp only [show (["acknowledgement", "funding statement"] : List String).isEmpty
      = false from rfl, Bool.false_eq_true, if_false]
  simp only [show dedupKeepFirst (List.map (fun s => pyLower (pyStrip s))
      ["acknowledgement", "funding statement"]) =
      ["acknowledgement", "funding statement"] from by decide]
  simp only [List.filter, String.reduceEq, hA, hF, false_and, true_and, and_false,
    false_or, or_false, decide_not, not_false_eq_true]
  simp only [show (decide True) = true from rfl]
  simp only [show (["acknowledgement", "funding statement"] : List String).contains
      "acknowledgement" = true from rfl,
    show (["acknowledgement", "funding statement"] : List String).contains
      "funding statement" = true from rfl,
    show decide ("acknowledgement" ≠ "acknowledgement" ∧
      "acknowledgement" ≠ "funding statement") = false from rfl,
    show decide ("funding statement" ≠ "acknowledgement" ∧
      "funding statement" ≠ "funding statement") = false from rfl,
    and_self, if_true]
  rw [h40]
  dsimp only
  simp only [show ([] : List String).contains "acknowledgement" = false from rfl,
    show ([] : List String).contains "funding statement" = false from rfl,
    Bool.false_eq_true, if_false]
  exact pyInsert4 40 body _ _ _ _ hlen

/-- C7: with `missing = [acknowledgement, funding statement]` and the
references section first at paragraph index 40 (and the default texts not
already present), the edit inserts the four new paragraphs at indices 40-43
in order acknowledgement-heading, acknowledgement-body, funding-heading,
funding-body, each carrying one highlight on every run; paragraphs before
index 40 stay in place and every original paragraph from index 40 on is
shifted by +4. -/
theorem insert_missing_both_scenario (eo : List String) (reg : Registry)
    (sf : List (String × String)) (df : Option String) (body : List XPara)
    (h40 : logical_first_index (rebuild_section_maps reg sf df body) "references" = some 40)
    (hlen : 40 ≤ body.length)
    (hA : ¬ ((body.map paragraph_plain_text).contains ackHeadingText = true ∧
             (body.map paragraph_plain_text).contains ackContentText = true))
    (hF : ¬ ((body.map paragraph_plain_text).contains fundingHeadingText = true ∧
             (body.map paragraph_plain_text).contains fundingContentText = true)) :
    insert_missing_sections_body eo reg sf df
        ["acknowledgement", "funding statement"] body =
      body.take 40 ++
      [create_paragraph ackHeadingText "Times New Roman" 10 true false true,
       create_paragraph ackContentText "Times New Roman" 10 false false true,
       create_paragraph fundingHeadingText "Times New Roman" 10 false false true,
       create_paragraph fundingContentText "Times New Roman" 10 false false true] ++
      body.drop 40 ∧
    ([create_paragraph ackHeadingText "Times New Roman" 10 true false true,
      create_paragraph ackContentText "Times New Roman" 10 false false true,
      create_paragraph fundingHeadingText "Times New Roman" 10 false false true,
      create_paragraph fundingContentText "Times New Roman" 10 false false true].all
      (fun q => q.runs.all (fun r => countHighlights r = 1))) = true ∧
    (insert_missing_sections_body eo reg sf df
        ["acknowledgement", "funding statement"] body).take 40 = body.take 40 ∧
    (insert_missing_sections_body eo reg sf df
        ["acknowledgement", "funding statement"] body).drop 44 = body.drop 40 := by
  have heq := insert_both_before_references_aux eo reg sf df body h40 hlen hA hF
  have hT : (body.take 40).length = 40 := by
    simp only [List.length_take]
    omega
  refine ⟨heq, by decide, ?_, ?_⟩
  · rw [heq, List.append_assoc, List.take_left' hT]
  · rw [heq, List.append_assoc, List.drop_append_eq_append_drop,
      List.drop_eq_nil_of_le (by omega : (body.take 40).length ≤ 44), hT,
      List.nil_append]
    exact List.drop_left' (by norm_num)

def refsPara : XPara := { runs := [{ rPr := none, texts := ["References"] }] }
def witnessBody : List XPara := List.replicate 40 ({ runs := [] } : XPara) ++ [refsPara]
/-- Witness for C7 on a 41-paragraph body whose references section sits at
index 40. -/
theorem insert_missing_both_scenario_witness :
    insert_missing_sections_body [] [] [] none
        ["acknowledgement", "funding statement"] witnessBody =
      witnessBody.take 40 ++
      [create_paragraph ackHeadingText "Times New Roman" 10 true false true,
       create_paragraph ackContentText "Times New Roman" 10 false false true,
       create_paragraph fundingHeadingText "Times New Roman" 10 false false true,
       create_paragraph fundingContentText "Times New Roman" 10 false false true] ++
      witnessBody.drop 40 ∧
    ([create_paragraph ackHeadingText "Times New Roman" 10 true false true,
      create_paragraph ackContentText "Times New Roman" 10 false false true,
      create_paragraph fundingHeadingText "Times New Roman" 10 false false true,
      create_paragraph fundingContentText "Times New Roman" 10 false false true].all
      (fun q => q.runs.all (fun r => countHighlights r = 1))) = true ∧
    (insert_missing_sections_body [] [] [] none
        ["acknowledgement", "funding statement"] witnessBody).take 40 =
      witnessBody.take 40 ∧
    (insert_missing_sections_body [] [] [] none
        ["acknowledgement", "funding statement"] witnessBody).drop 44 =
      witnessBody.drop 40 :=
  insert_missing_both_scenario [] [] [] none witnessBody
    (by decide) (by decide) (by decide) (by decide)

theorem mem_map_pyInsert {α β : Type} (g : α → β) (X : β) (i : ℕ) (x : α)
    (l : List α) (h : X ∈ l.map g) : X ∈ (pyInsert i x l).map g := by
  unfold pyInsert
  simp only [List.map_append, List.mem_append]
  rcases List.mem_map.mp h with ⟨p, hp, hX⟩
  rcases (List.mem_append.mp ((List.take_append_drop i l) ▸ hp)) with h1 | h1
  · exact Or.inl (Or.inl (List.mem_map.mpr ⟨p, h1, hX⟩))
  · exact Or.inr (List.mem_map.mpr ⟨p, h1, hX⟩)

theorem self_mem_map_pyInsert {α β : Type} (g : α → β) (i : ℕ) (x : α)
    (l : List α) : g x ∈ (pyInsert i x l).map g := by
  unfold pyInsert
  simp

theorem plain_create (t f : String) (s : ℚ) (b i h : Bool) :
    paragraph_plain_text (create_paragraph t f s b i h) = pyStrip t := by
  unfold create_paragraph paragraph_plain_text
  rcases hb : b <;> rcases hi : i <;> rcases hh : h <;>
    simp [String.join, List.filter] <;>
    rcases he : t.isEmpty <;> simp [he]
  all_goals
    rw [show t = "" from (String.isEmpty_iff t).mp he]

theorem mem_map_append2 {α β : Type} (g : α → β) (X : β) (l : List α)
    (x y : α) (h : X ∈ l.map g) : X ∈ (l ++ [x, y]).map g := by
  simp only [List.map_append, List.mem_append]
  exact Or.inl h

theorem insert_section_texts (eo : List String) (reg : Registry)
    (sf : List (String × String)) (df : Option String) (key h c : String)
    (body : List XPara) :
    (∀ X, X ∈ body.map paragraph_plain_text →
      X ∈ (insert_section eo reg sf df key h c body).map paragraph_plain_text) ∧
    pyStrip h ∈ (insert_section eo reg sf df key h c body).map paragraph_plain_text ∧
    pyStrip c ∈ (insert_section eo reg sf df key h c body).map paragraph_plain_text := by
  unfold insert_section
  have hh := plain_create h "Times New Roman" 10 (key ≠ "funding statement" : Bool) false true
  have hc := plain_create c "Times New Roman" 10 false false true
  dsimp only
  rcases hO : (if key = "funding statement" then
      (insertion_index_for eo (rebuild_section_maps reg sf df body) body key).2
    else none) with _ | a
  case some =>
    simp only [hO]
    refine ⟨fun X hX => mem_map_pyInsert _ _ _ _ _ (mem_map_pyInsert _ _ _ _ _ hX), ?_, ?_⟩
    · exact mem_map_pyInsert _ _ _ _ _ (hh ▸ self_mem_map_pyInsert _ _ _ _)
    · exact hc ▸ self_mem_map_pyInsert _ _ _ _
  case none =>
  simp only [hO]
  rcases hR : (insertion_index_for eo (rebuild_section_maps reg sf df body) body key).1
    with _ | idx
  case none =>
    simp only [hR]
    refine ⟨fun X hX => mem_map_append2 _ _ _ _ _ hX, ?_, ?_⟩
    · exact List.mem_map.mpr ⟨_, by simp, hh⟩
    · exact List.mem_map.mpr ⟨_, by simp, hc⟩
  case some =>
  simp only [hR]
  split
  · refine ⟨fun X hX => mem_map_append2 _ _ _ _ _ hX, ?_, ?_⟩
    · exact List.mem_map.mpr ⟨_, by simp, hh⟩
    · exact List.mem_map.mpr ⟨_, by simp, hc⟩
  · refine ⟨fun X hX => mem_map_pyInsert _ _ _ _ _ (mem_map_pyInsert _ _ _ _ _ hX), ?_, ?_⟩
    · exact mem_map_pyInsert _ _ _ _ _ (hh ▸ self_mem_map_pyInsert _ _ _ _)
    · exact hc ▸ self_mem_map_pyInsert _ _ _ _

theorem contains_iff_mem (l : List String) (a : String) :
    l.contains a = true ↔ a ∈ l := List.elem_iff

theorem filter_strip_not_contains_ack (l : List String) :
    ((l.filter (fun k => decide (k ≠ "acknowledgement" ∧ k ≠ "funding statement"))).contains
      "acknowledgement") = false := by
  rw [← Bool.not_eq_true, contains_iff_mem]
  intro hmem
  have := (List.mem_filter.mp hmem).2
  simp at this

theorem filter_strip_not_contains_fund (l : List String) :
    ((l.filter (fun k => decide (k ≠ "acknowledgement" ∧ k ≠ "funding statement"))).contains
      "funding statement") = false := by
  rw [← Bool.not_eq_true, contains_iff_mem]
  intro hmem
  have := (List.mem_filter.mp hmem).2
  simp at this

theorem pred_false_of_filtered (l : List String) (p : String → Bool) (a : String)
    (hmem : a ∈ l) (hnot : (l.filter p).contains a = false) : p a = false := by
  rw [← Bool.not_eq_true, contains_iff_mem] at hnot
  rcases hp : p a
  · rfl
  · exact absurd (List.mem_filter.mpr ⟨hmem, hp⟩) hnot

set_option maxHeartbeats 1000000 in
theorem insert_missing_mono (eo : List String) (reg : Registry)
    (sf : List (String × String)) (df : Option String)
    (missing : List String) (body : List XPara) (X : String)
    (hX : X ∈ body.map paragraph_plain_text) :
    X ∈ (insert_missing_sections_body eo reg sf df missing body).map
      paragraph_plain_text := by
  unfold insert_missing_sections_body
  split
  · exact hX
  · simp only []
    repeat split
    all_goals
      rcases href : logical_first_index (rebuild_section_maps reg sf df body)
        "references" with _ | r <;>
      simp only [href] <;>
      repeat
        first
        | exact hX
        | apply (insert_section_texts _ _ _ _ _ _ _ _).1
        | apply mem_map_pyInsert
        | split

theorem self_mem_map_pyInsert_eq {α β : Type} (g : α → β) (X : β) (i : ℕ)
    (x : α) (l : List α) (hx : g x = X) : X ∈ (pyInsert i x l).map g :=
  hx ▸ self_mem_map_pyInsert g i x l

theorem insert_section_adds_heading_eq (eo : List String) (reg : Registry)
    (sf : List (String × String)) (df : Option String) (key h c : String)
    (body : List XPara) (X : String) (hx : pyStrip h = X) :
    X ∈ (insert_section eo reg sf df key h c body).map paragraph_plain_text :=
  hx ▸ (insert_section_texts eo reg sf df key h c body).2.1

theorem insert_section_adds_content_eq (eo : List String) (reg : Registry)
    (sf : List (String × String)) (df : Option String) (key h c : String)
    (body : List XPara) (X : String) (hx : pyStrip c = X) :
    X ∈ (insert_section eo reg sf df key h c body).map paragraph_plain_text :=
  hx ▸ (insert_section_texts eo reg sf df key h c body).2.2

set_option maxHeartbeats 1000000 in
theorem insert_missing_ack (eo : List String) (reg : Registry)
    (sf : List (String × String)) (df : Option String)
    (missing : List String) (body : List XPara)
    (h : (dedupKeepFirst (missing.map (fun s => pyLower (pyStrip s)))).contains
      "acknowledgement" = true) :
    ackHeadingText ∈ (insert_missing_sections_body eo reg sf df missing body).map
      paragraph_plain_text ∧
    ackContentText ∈ (insert_missing_sections_body eo reg sf df missing body).map
      paragraph_plain_text := by
  have haH : paragraph_plain_text
      (create_paragraph ackHeadingText "Times New Roman" 10 true false true)
      = ackHeadingText := by
    rw [plain_create]
    decide
  have haC : paragraph_plain_text
      (create_paragraph ackContentText "Times New Roman" 10 false false true)
      = ackContentText := by
    rw [plain_create]
    decide
  have hsa : pyStrip ackHeadingText = ackHeadingText := by decide
  have hsc : pyStrip ackContentText = ackContentText := by decide
  by_cases haf : ((dedupKeepFirst (missing.map (fun s => pyLower (pyStrip s)))).filter
      (fun k => decide
        ¬(k = "acknowledgement" ∧
            (body.map paragraph_plain_text).contains ackHeadingText = true ∧
              (body.map paragraph_plain_text).contains ackContentText = true ∨
          k = "funding statement" ∧
            (body.map paragraph_plain_text).contains fundingHeadingText = true ∧
              (body.map paragraph_plain_text).contains fundingContentText = true))).contains
      "acknowledgement" = true
  case neg =>
    have hmem : "acknowledgement" ∈
        dedupKeepFirst (missing.map (fun s => pyLower (pyStrip s))) :=
      (contains_iff_mem _ _).mp h
    have hpred := pred_false_of_filtered _ _ _ hmem
      (by rwa [Bool.not_eq_true] at haf)
    simp only [decide_eq_false_iff_not, not_not, String.reduceEq, true_and,
      false_and, or_false, false_or, not_true, not_false_eq_true] at hpred
    exact ⟨insert_missing_mono _ _ _ _ _ _ _ ((contains_iff_mem _ _).mp hpred.1),
           insert_missing_mono _ _ _ _ _ _ _ ((contains_iff_mem _ _).mp hpred.2)⟩
  case pos =>
    unfold insert_missing_sections_body
    rcases hE : missing.isEmpty with _ | _
    case true =>
      rw [List.isEmpty_iff.mp hE] at h
      simp [dedupKeepFirst] at h
    case false =>
    simp only [Bool.false_eq_true, if_false]
    by_cases hcf : ((dedupKeepFirst (missing.map (fun s => pyLower (pyStrip s)))).filter
        (fun k => decide
          ¬(k = "acknowledgement" ∧
              (body.map paragraph_plain_text).contains ackHeadingText = true ∧
                (body.map paragraph_plain_text).contains ackContentText = true ∨
            k = "funding statement" ∧
              (body.map paragraph_plain_text).contains fundingHeadingText = true ∧
                (body.map paragraph_plain_text).contains fundingContentText = true))).contains
        "funding statement" = true
    · have hBoth := And.intro haf hcf
      rcases href : logical_first_index (rebuild_section_maps reg sf df body)
        "references" with _ | r
      · rw [if_pos hBoth]
        dsimp only
        simp only [haf, hcf, if_true]
        constructor
        · exact (insert_section_texts _ _ _ _ _ _ _ _).1 _
            (insert_section_adds_heading_eq _ _ _ _ _ _ _ _ _ hsa)
        · exact (insert_section_texts _ _ _ _ _ _ _ _).1 _
            (insert_section_adds_content_eq _ _ _ _ _ _ _ _ _ hsc)
      · rw [if_pos hBoth]
        dsimp only
        rw [filter_strip_not_contains_ack, filter_strip_not_contains_fund]
        simp only [Bool.false_eq_true, if_false]
        constructor
        · exact mem_map_pyInsert _ _ _ _ _ (mem_map_pyInsert _ _ _ _ _
            (mem_map_pyInsert _ _ _ _ _
              (self_mem_map_pyInsert_eq _ _ _ _ _ haH)))
        · exact mem_map_pyInsert _ _ _ _ _ (mem_map_pyInsert _ _ _ _ _
            (self_mem_map_pyInsert_eq _ _ _ _ _ haC))
    · rw [if_neg (fun hb => hcf (And.right hb))]
      dsimp only
      simp only [haf, hcf, if_true, Bool.false_eq_true, if_false]
      constructor
      · exact insert_section_adds_heading_eq _ _ _ _ _ _ _ _ _ hsa
      · exact insert_section_adds_content_eq _ _ _ _ _ _ _ _ _ hsc

set_option maxHeartbeats 1000000 in
theorem insert_missing_fund (eo : List String) (reg : Registry)
    (sf : List (String × String)) (df : Option String)
    (missing : List String) (body : List XPara)
    (h : (dedupKeepFirst (missing.map (fun s => pyLower (pyStrip s)))).contains
      "funding statement" = true) :
    fundingHeadingText ∈ (insert_missing_sections_body eo reg sf df missing body).map
      paragraph_plain_text ∧
    fundingContentText ∈ (insert_missing_sections_body eo reg sf df missing body).map
      paragraph_plain_text := by
  have hfH : paragraph_plain_text
      (create_paragraph fundingHeadingText "Times New Roman" 10 false false true)
      = fundingHeadingText := by
    rw [plain_create]
    decide
  have hfC : paragraph_plain_text
      (create_paragraph fundingContentText "Times New Roman" 10 false false true)
      = fundingContentText := by
    rw [plain_create]
    decide
  have hsf : pyStrip fundingHeadingText = fundingHeadingText := by decide
  have hsg : pyStrip fundingContentText = fundingContentText := by decide
  by_cases haf : ((dedupKeepFirst (missing.map (fun s => pyLower (pyStrip s)))).filter
      (fun k => decide
        ¬(k = "acknowledgement" ∧
            (body.map paragraph_plain_text).contains ackHeadingText = true ∧
              (body.map paragraph_plain_text).contains ackContentText = true ∨
          k = "funding statement" ∧
            (body.map paragraph_plain_text).contains fundingHeadingText = true ∧
              (body.map paragraph_plain_text).contains fundingContentText = true))).contains
      "funding statement" = true
  case neg =>
    have hmem : "funding statement" ∈
        dedupKeepFirst (missing.map (fun s => pyLower (pyStrip s))) :=
      (contains_iff_mem _ _).mp h
    have hpred := pred_false_of_filtered _ _ _ hmem
      (by rwa [Bool.not_eq_true] at haf)
    simp only [decide_eq_false_iff_not, not_not, String.reduceEq, true_and,
      false_and, or_false, false_or, not_true, not_false_eq_true] at hpred
    exact ⟨insert_missing_mono _ _ _ _ _ _ _ ((contains_iff_mem _ _).mp hpred.1),
           insert_missing_mono _ _ _ _ _ _ _ ((contains_iff_mem _ _).mp hpred.2)⟩
  case pos =>
    unfold insert_missing_sections_body
    rcases hE : missing.isEmpty with _ | _
    case true =>
      rw [List.isEmpty_iff.mp hE] at h
      simp [dedupKeepFirst] at h
    case false =>
    simp only [Bool.false_eq_true, if_false]
    by_cases hca : ((dedupKeepFirst (missing.map (fun s => pyLower (pyStrip s)))).filter
        (fun k => decide
          ¬(k = "acknowledgement" ∧
              (body.map paragraph_plain_text).contains ackHeadingText = true ∧
                (body.map paragraph_plain_text).contains ackContentText = true ∨
            k = "funding statement" ∧
              (body.map paragraph_plain_text).contains fundingHeadingText = true ∧
                (body.map paragraph_plain_text).contains fundingContentText = true))).contains
        "acknowledgement" = true
    · have hBoth := And.intro hca haf
      rcases href : logical_first_index (rebuild_section_maps reg sf df body)
        "references" with _ | r
      · rw [if_pos hBoth]
        dsimp only
        simp only [hca, haf, if_true]
        constructor
        · exact insert_section_adds_heading_eq _ _ _ _ _ _ _ _ _ hsf
        · exact insert_section_adds_content_eq _ _ _ _ _ _ _ _ _ hsg
      · rw [if_pos hBoth]
        dsimp only
        rw [filter_strip_not_contains_ack, filter_strip_not_contains_fund]
        simp only [Bool.false_eq_true, if_false]
        constructor
        · exact mem_map_pyInsert _ _ _ _ _
            (self_mem_map_pyInsert_eq _ _ _ _ _ hfH)
        · exact self_mem_map_pyInsert_eq _ _ _ _ _ hfC
    · rw [if_neg (fun hb => hca (And.left hb))]
      dsimp only
      simp only [hca, haf, if_true, Bool.false_eq_true, if_false]
      constructor
      · exact insert_section_adds_heading_eq _ _ _ _ _ _ _ _ _ hsf
      · exact insert_section_adds_content_eq _ _ _ _ _ _ _ _ _ hsg

set_option maxHeartbeats 1000000 in
theorem insert_missing_noop (eo : List String) (reg : Registry)
    (sf : List (String × String)) (df : Option String)
    (missing : List String) (body : List XPara)
    (hA : (dedupKeepFirst (missing.map (fun s => pyLower (pyStrip s)))).contains
        "acknowledgement" = true →
      (body.map paragraph_plain_text).contains ackHeadingText = true ∧
      (body.map paragraph_plain_text).contains ackContentText = true)
    (hF : (dedupKeepFirst (missing.map (fun s => pyLower (pyStrip s)))).contains
        "funding statement" = true →
      (body.map paragraph_plain_text).contains fundingHeadingText = true ∧
      (body.map paragraph_plain_text).contains fundingContentText = true) :
    insert_missing_sections_body eo reg sf df missing body = body := by
  have hFA : (((dedupKeepFirst (missing.map (fun s => pyLower (pyStrip s)))).filter
      (fun k => decide
        ¬(k = "acknowledgement" ∧
            (body.map paragraph_plain_text).contains ackHeadingText = true ∧
              (body.map paragraph_plain_text).contains ackContentText = true ∨
          k = "funding statement" ∧
            (body.map paragraph_plain_text).contains fundingHeadingText = true ∧
              (body.map paragraph_plain_text).contains fundingContentText = true))).contains
      "acknowledgement") = false := by
    rw [← Bool.not_eq_true, contains_iff_mem]
    intro hmem
    have h1 := List.mem_filter.mp hmem
    have h2 := hA ((contains_iff_mem _ _).mpr h1.1)
    have h3 := h1.2
    rw [decide_eq_true_eq] at h3
    exact h3 (Or.inl ⟨rfl, h2.1, h2.2⟩)
  have hFF : (((dedupKeepFirst (missing.map (fun s => pyLower (pyStrip s)))).filter
      (fun k => decide
        ¬(k = "acknowledgement" ∧
            (body.map paragraph_plain_text).contains ackHeadingText = true ∧
              (body.map paragraph_plain_text).contains ackContentText = true ∨
          k = "funding statement" ∧
            (body.map paragraph_plain_text).contains fundingHeadingText = true ∧
              (body.map paragraph_plain_text).contains fundingContentText = true))).contains
      "funding statement") = false := by
    rw [← Bool.not_eq_true, contains_iff_mem]
    intro hmem
    have h1 := List.mem_filter.mp hmem
    have h2 := hF ((contains_iff_mem _ _).mpr h1.1)
    have h3 := h1.2
    rw [decide_eq_true_eq] at h3
    exact h3 (Or.inr ⟨rfl, h2.1, h2.2⟩)
  unfold insert_missing_sections_body
  rcases hE : missing.isEmpty with _ | _
  case true => rw [if_pos rfl]
  case false =>
  simp only [Bool.false_eq_true, if_false, hFA, hFF, false_and, and_false,
    reduceIte]

theorem insert_missing_idem_aux (eo : List String) (reg : Registry)
    (sf : List (String × String)) (df : Option String)
    (missing : List String) (body : List XPara) :
    insert_missing_sections_body eo reg sf df missing
      (insert_missing_sections_body eo reg sf df missing body) =
    insert_missing_sections_body eo reg sf df missing body := by
  apply insert_missing_noop
  · intro h
    have hm := insert_missing_ack eo reg sf df missing body h
    exact ⟨(contains_iff_mem _ _).mpr hm.1, (contains_iff_mem _ _).mpr hm.2⟩
  · intro h
    have hm := insert_missing_fund eo reg sf df missing body h
    exact ⟨(contains_iff_mem _ _).mpr hm.1, (contains_iff_mem _ _).mpr hm.2⟩

/-- C10: a body that already carries the default acknowledgement (resp.
funding statement) heading and content texts is left unchanged when that
label is the missing list; and the insertion pass is idempotent: running it
twice with the same missing list produces the same paragraph sequence as
running it once. -/
theorem insert_missing_skip_and_idempotent (eo : List String) (reg : Registry)
    (sf : List (String × String)) (df : Option String)
    (missing : List String) (body : List XPara) :
    ((body.map paragraph_plain_text).contains ackHeadingText = true →
     (body.map paragraph_plain_text).contains ackContentText = true →
     insert_missing_sections_body eo reg sf df ["acknowledgement"] body = body) ∧
    ((body.map paragraph_plain_text).contains fundingHeadingText = true →
     (body.map paragraph_plain_text).contains fundingContentText = true →
     insert_missing_sections_body eo reg sf df ["funding statement"] body = body) ∧
    insert_missing_sections_body eo reg sf df missing
      (insert_missing_sections_body eo reg sf df missing body) =
    insert_missing_sections_body eo reg sf df missing body := by
  refine ⟨?_, ?_, insert_missing_idem_aux eo reg sf df missing body⟩
  · intro h1 h2
    apply insert_missing_noop
    · intro hc
      exact ⟨h1, h2⟩
    · intro hc
      exact absurd hc (by decide)
  · intro h1 h2
    apply insert_missing_noop
    · intro hc
      exact absurd hc (by decide)
    · intro hc
      exact ⟨h1, h2⟩

/-- A body that already carries all four default texts. -/
def defaultTextsBody : List XPara :=
  [create_paragraph ackHeadingText "Times New Roman" 10 true false true,
   create_paragraph ackContentText "Times New Roman" 10 false false true,
   create_paragraph fundingHeadingText "Times New Roman" 10 false false true,
   create_paragraph fundingContentText "Times New Roman" 10 false false true]

set_option maxRecDepth 4000 in
/-- Witness for C10 at a concrete body containing the default texts. -/
theorem insert_missing_skip_and_idempotent_witness :
    insert_missing_sections_body [] [] [] none ["acknowledgement"]
      defaultTextsBody = defaultTextsBody ∧
    insert_missing_sections_body [] [] [] none ["funding statement"]
      defaultTextsBody = defaultTextsBody ∧
    insert_missing_sections_body [] [] [] none
        ["acknowledgement", "funding statement"]
        (insert_missing_sections_body [] [] [] none
          ["acknowledgement", "funding statement"] defaultTextsBody) =
      insert_missing_sections_body [] [] [] none
        ["acknowledgement", "funding statement"] defaultTextsBody := by
  have H := insert_missing_skip_and_idempotent [] [] [] none
    ["acknowledgement", "funding statement"] defaultTextsBody
  exact ⟨H.1 (by decide) (by decide), H.2.1 (by decide) (by decide), H.2.2⟩
